import Mathlib

/-!
Shallow embedding of the Project-Samarth question-answering core
(`app/analytics.py`, `app/query_executor.py`, `app/loaders.py`) and proofs
about its column-detection, windowing and aggregation behaviour.

Tables are modelled as lists of rows of cells; pandas numeric coercion
(`pd.to_numeric(..., errors="coerce")`) is modelled by an explicit decimal
parser; `NaN` is modelled by the `Cell.na` constructor; real-valued
arithmetic is modelled over `ℚ`.
-/

deriving instance DecidableEq for Except

namespace Samarth

/-! ## Cells and tables -/

/-- A single table cell: a number, a raw string, or a missing value (`NaN`). -/
inductive Cell : Type where
  | num (q : ℚ)
  | str (s : String)
  | na
  deriving DecidableEq, Repr

/-- Python whitespace characters (the ASCII part of `str.strip` / regex `\s`). -/
def isSpaceChar (c : Char) : Bool :=
  c == ' ' || c == '\t' || c == '\n' || c == '\r' || c == '\x0b' || c == '\x0c'

/-- Characters replaced by the column-name normalizer's regex `[-_/\\(),]+`. -/
def isPunctChar (c : Char) : Bool :=
  c == '-' || c == '_' || c == '/' || c == '\\' || c == '(' || c == ')' || c == ','

/-- Strip leading and trailing whitespace (Python `str.strip()`). -/
def pyStrip (l : List Char) : List Char :=
  ((l.dropWhile isSpaceChar).reverse.dropWhile isSpaceChar).reverse

/-- Numeric value of a digit run (most significant first). -/
def digitsVal (l : List Char) : ℕ :=
  l.foldl (fun a c => a * 10 + (c.toNat - 48)) 0

/-- Parse an unsigned decimal literal `123`, `123.45`, `123.`, `.45`. -/
def parseUnsigned? (l : List Char) : Option ℚ :=
  let intPart := l.takeWhile Char.isDigit
  let rest := l.dropWhile Char.isDigit
  match rest with
  | [] => if intPart.isEmpty then none else some (digitsVal intPart)
  | '.' :: frac =>
    if frac.all Char.isDigit && (!intPart.isEmpty || !frac.isEmpty) then
      some ((digitsVal intPart : ℚ) + (digitsVal frac : ℚ) / ((10 : ℚ) ^ frac.length))
    else none
  | _ => none

/-- Parse an optionally signed decimal literal. -/
def parseSigned? (l : List Char) : Option ℚ :=
  match l with
  | '-' :: r => (parseUnsigned? r).map (fun q => -q)
  | '+' :: r => parseUnsigned? r
  | _ => parseUnsigned? l

/-- Numeric view of a cell, as produced by `pd.to_numeric(s, errors="coerce")`:
numbers pass through, strings are parsed as decimal literals (ignoring
surrounding whitespace), anything else is missing. -/
def Cell.toNum? : Cell → Option ℚ
  | .num q => some q
  | .str s => parseSigned? (pyStrip s.data)
  | .na => none

/-- Coerce one cell to numeric, turning parse failures into `NaN`
(`pd.to_numeric(col, errors="coerce")`). -/
def coerceCell (c : Cell) : Cell :=
  match c.toNum? with
  | some q => .num q
  | none => .na

/-- A pandas DataFrame: named columns and aligned rows of cells. -/
structure DataFrame where
  columns : List String
  rows : List (List Cell)
  deriving DecidableEq, Repr

/-- Cell of a row at a column index (missing cells read as `NaN`). -/
def getCell (r : List Cell) (i : ℕ) : Cell :=
  r.getD i .na

/-- Index of the first column with the given name (`df.columns.index`). -/
def DataFrame.colIdx? (df : DataFrame) (name : String) : Option ℕ :=
  df.columns.findIdx? (· == name)

/-- The cells of column `i`, top to bottom. -/
def DataFrame.colCells (df : DataFrame) (i : ℕ) : List Cell :=
  df.rows.map (fun r => getCell r i)

/-- Replace column `i` of each row by `f` of the whole original row
(`df[col] = expr(df)` when `col` already exists). -/
def DataFrame.mapRowsAt (df : DataFrame) (i : ℕ) (f : List Cell → Cell) : DataFrame :=
  ⟨df.columns, df.rows.map (fun r => r.set i (f r))⟩

/-- Assign a (new or existing) named column, computing each cell from the
original row (`df[name] = expr(df)`). -/
def DataFrame.assignCol (df : DataFrame) (name : String) (f : List Cell → Cell) : DataFrame :=
  match df.colIdx? name with
  | some i => df.mapRowsAt i f
  | none => ⟨df.columns ++ [name], df.rows.map (fun r => r ++ [f r])⟩

/-- Keep only the rows satisfying `p` (boolean-mask row filtering). -/
def DataFrame.filterRows (df : DataFrame) (p : List Cell → Bool) : DataFrame :=
  ⟨df.columns, df.rows.filter p⟩

/-- Python `str.lower` on a string (ASCII case folding, as `Char.toLower`). -/
def lowerStr (s : String) : String :=
  ⟨s.data.map Char.toLower⟩

/-- Sum of a list of rationals, accumulated left to right. -/
def ratSum (l : List ℚ) : ℚ :=
  l.foldl (· + ·) 0

/-- The numeric (non-`NaN`) values of a list of cells. -/
def numsOf (cells : List Cell) : List ℚ :=
  cells.filterMap Cell.toNum?

/-- Arithmetic mean skipping missing values (`Series.mean()`); `none` is the
`NaN` mean of an all-missing column. -/
def meanCells (cells : List Cell) : Option ℚ :=
  let ns := numsOf cells
  if ns.isEmpty then none else some (ratSum ns / (ns.length : ℚ))

/-- Truncation toward zero (numpy `astype(int)` on floats). -/
def pyTrunc (q : ℚ) : ℤ :=
  if q < 0 then ⌈q⌉ else ⌊q⌋

/-- A column is of numeric dtype when no cell holds a raw string
(`select_dtypes(include=[np.number])`). -/
def isNumericDtype (cells : List Cell) : Bool :=
  cells.all (fun c => match c with | .str _ => false | _ => true)

/-- First candidate name (in candidate-list order) found in the lowered
column names, mapped back to the original column name: the
`for cand in cands: if cand in cols: col = df.columns[cols.index(cand)]`
idiom. -/
def findCand (colsLower : List String) (origs : List String) (cands : List String) :
    Option String :=
  cands.findSome? (fun cand =>
    (colsLower.findIdx? (· == cand)).bind (fun i => origs.get? i))

/-! ## Column-name canonicalization (`query_executor._normalize_columns.norm`)

The source normalizer is `re.sub` with a character-class-run pattern; it is
modelled by `collapseAux`, which walks the string once and emits a single
space per maximal run of matching characters. -/

/-- Replace each maximal run of characters satisfying `p` by one space;
`inRun` records whether the previous character was part of a run. -/
def collapseAux (p : Char → Bool) : Bool → List Char → List Char
  | _, [] => []
  | inRun, c :: rest =>
    if p c then
      if inRun then collapseAux p true rest
      else ' ' :: collapseAux p true rest
    else c :: collapseAux p false rest

/-- Replace each maximal run of characters satisfying `p` by a single space
(`re.sub(r"[...]+", " ", s)`). -/
def replRuns (p : Char → Bool) (l : List Char) : List Char :=
  collapseAux p false l

/-- Column-name canonicalization from `_normalize_columns`: strip, replace
punctuation runs by a space, collapse whitespace runs, lowercase. -/
def normChars (l : List Char) : List Char :=
  (replRuns isSpaceChar (replRuns isPunctChar (pyStrip l))).map Char.toLower

/-- The `norm` function of `_normalize_columns`, on strings. -/
def normName (s : String) : String :=
  ⟨normChars s.data⟩

/-- Python `str.strip()` on strings. -/
def stripName (s : String) : String :=
  ⟨pyStrip s.data⟩

/-! ## Ordering of cells and sorted grouping keys

Pandas `groupby(..., sort=True)` returns groups in ascending key order; the
key ordering is modelled by an explicit total order on cells. -/

/-- Lexicographic comparison of character lists by code point. -/
def charListLe : List Char → List Char → Bool
  | [], _ => true
  | _ :: _, [] => false
  | a :: as, b :: bs =>
    if a.toNat < b.toNat then true
    else if b.toNat < a.toNat then false
    else charListLe as bs

/-- Lexicographic string comparison. -/
def strLe (a b : String) : Bool :=
  charListLe a.data b.data

/-- Total order on cells used for ordering group keys: `NaN`, then numbers,
then strings. -/
def cellLe : Cell → Cell → Bool
  | .na, _ => true
  | .num _, .na => false
  | .num a, .num b => decide (a ≤ b)
  | .num _, .str _ => true
  | .str _, .na => false
  | .str _, .num _ => false
  | .str a, .str b => strLe a b

def bltOf (le : α → α → Bool) (a b : α) : Prop :=
  le a b = true ∧ ¬ le b a = true

/-- Insert into a sorted list, dropping the element when an equal one (in the
order's sense) is already present. -/
def insertSorted (le : α → α → Bool) (x : α) : List α → List α
  | [] => [x]
  | y :: ys =>
    if le x y then
      if le y x then y :: ys
      else x :: y :: ys
    else y :: insertSorted le x ys

/-- Sort into strictly ascending order, removing duplicate keys: the ordered
set of group keys produced by pandas `groupby`. -/
def sortDedup (le : α → α → Bool) (l : List α) : List α :=
  l.foldr (insertSorted le) []

/-! ## Trailing-window filtering and grouping

These model the recurring source idiom
`max_year = int(to_numeric(df[year]).dropna().astype(int).max())`,
`df[(df[year] >= min_year) & (df[year] <= max_year)]` and
`df.groupby(key)[val].sum()/.mean()`. -/

/-- Maximum year: parse the year cells, drop missing, truncate to int, max
(`to_numeric(col, errors="coerce").dropna().astype(int).max()`). -/
def yearsTruncMax? (cells : List Cell) : Option ℤ :=
  ((numsOf cells).map pyTrunc).max?

/-- Keep the rows whose year cell parses to a value in `[minY, maxY]`; rows
with missing or unparseable year compare as `NaN` and are dropped. -/
def filterYearWindow (df : DataFrame) (yi : ℕ) (minY maxY : ℤ) : DataFrame :=
  df.filterRows (fun r =>
    match (getCell r yi).toNum? with
    | some y => decide ((minY : ℚ) ≤ y) && decide (y ≤ (maxY : ℚ))
    | none => false)

/-- Group keys of a cell column: distinct non-missing values in ascending
order (pandas `groupby` drops `NaN` keys and sorts). -/
def groupKeys (cells : List Cell) : List Cell :=
  sortDedup cellLe (cells.filter (fun c => !(c == Cell.na)))

/-- Sum of the value column within each group key
(`df.groupby(key)[val].sum()`); missing values add nothing. -/
def DataFrame.groupbySum (df : DataFrame) (ki vi : ℕ) : List (Cell × ℚ) :=
  (groupKeys (df.colCells ki)).map (fun k =>
    (k, ratSum (numsOf ((df.filterRows (fun r => getCell r ki == k)).colCells vi))))

/-- Mean of the value column within each group key
(`df.groupby(key)[val].mean()`); `none` is an all-missing (`NaN`) mean. -/
def DataFrame.groupbyMean (df : DataFrame) (ki vi : ℕ) : List (Cell × Option ℚ) :=
  (groupKeys (df.colCells ki)).map (fun k =>
    (k, meanCells ((df.filterRows (fun r => getCell r ki == k)).colCells vi)))

/-- Render an optional mean as a cell (`NaN` when undefined). -/
def cellOfMean : Option ℚ → Cell
  | some q => .num q
  | none => .na

/-- Membership of a cell in a list of strings (`Series.isin(states)`). -/
def cellInStrs (c : Cell) (ss : List String) : Bool :=
  match c with
  | .str s => ss.contains s
  | _ => false

/-! ## `analytics.avg_annual_climate_metric`

The source function mutates its argument (`df_climate[year_col] =
pd.to_numeric(...)` on the caller's frame), so the embedding returns the
post-call state of the input table alongside the `Except`-wrapped result;
`Except.error` models an uncaught `ValueError`. -/

/-- Meta record returned by `avg_annual_climate_metric`. -/
structure AvgMeta where
  years_used : ℤ × ℤ
  metric_column : String
  year_column : String
  state_column : Option String
  deriving DecidableEq, Repr

/-- Default year-column candidates of `avg_annual_climate_metric`. -/
def avgYearCands : List String := ["year", "yy", "yr"]

/-- Default metric-column candidates of `avg_annual_climate_metric`. -/
def avgMetricCands : List String :=
  ["annual_mean_temp_c", "annual_temp", "annual_mean_temp", "annual_rainfall_mm",
   "rainfall_mm", "mean_temp_c", "annual_mean_temp"]

/-- Numeric-dtype columns of the frame other than the year column, in column
order (the metric fallback `select_dtypes(include=[np.number])`). -/
def numericColsExcept (df : DataFrame) (yearCol : String) : List String :=
  ((df.columns.enum.filter (fun ic => isNumericDtype (df.colCells ic.1))).map Prod.snd).filter
    (fun c => c ≠ yearCol)

/-- The embedding of `analytics.avg_annual_climate_metric`. Returns the
`Except`-wrapped `(result, meta)` pair together with the post-call state of
the input frame. -/
def avg_annual_climate_metric (df : DataFrame) (states : List String)
    (year_col_candidates : Option (List String) := none)
    (metric_candidates : Option (List String) := none)
    (last_n_years : ℤ := 3) : Except String (DataFrame × AvgMeta) × DataFrame :=
  let colsLower := df.columns.map lowerStr
  match findCand colsLower df.columns (year_col_candidates.getD avgYearCands) with
  | none => (.error "Could not detect year column in climate data", df)
  | some year_col =>
    let metricCol? :=
      match findCand colsLower df.columns (metric_candidates.getD avgMetricCands) with
      | some m => some m
      | none => (numericColsExcept df year_col).head?
    match metricCol? with
    | none => (.error "No numeric climate metric found", df)
    | some metric_col =>
      let state_col? := findCand colsLower df.columns ["state", "region", "subdivision", "district"]
      let yi := (df.colIdx? year_col).getD 0
      match yearsTruncMax? (df.colCells yi) with
      | none => (.error "cannot convert float NaN to integer", df)
      | some max_year =>
        let min_year := max_year - last_n_years + 1
        let df' := df.mapRowsAt yi (fun r => coerceCell (getCell r yi))
        let df_f := filterYearWindow df' yi min_year max_year
        let meta : AvgMeta :=
          ⟨(min_year, max_year), metric_col, year_col, state_col?⟩
        match state_col? with
        | some state_col =>
          let si := (df'.colIdx? state_col).getD 0
          let mi := (df'.colIdx? metric_col).getD 0
          let dff := df_f.filterRows (fun r => cellInStrs (getCell r si) states)
          let out : DataFrame :=
            ⟨[state_col, "avg_" ++ metric_col],
             (dff.groupbyMean si mi).map (fun km => [km.1, cellOfMean km.2])⟩
          (.ok (out, meta), df')
        | none =>
          let mi := (df'.colIdx? metric_col).getD 0
          let out : DataFrame :=
            ⟨["avg_" ++ metric_col], [[cellOfMean (meanCells (df_f.colCells mi))]]⟩
          (.ok (out, meta), df')

/-! ## `analytics.top_crops_by_volume`

The source copies the input frame (`df = df_crop.copy()`) before any
assignment, so no post-state is returned; `Except.error` models the
`KeyError` raised by `groupby` when the crop column is absent. -/

/-- Detection, windowing, state filtering and production coercion of
`analytics.top_crops_by_volume` (its body up to the `groupby`): returns the
prepared frame `dff` together with the detected crop and production column
names. -/
def top_crops_prepare (df : DataFrame) (state : String) (last_n_years : ℤ) :
    DataFrame × String × String :=
  let colsLower := df.columns.map lowerStr
  let year_col := (findCand colsLower df.columns ["year", "season", "reporting_year"]).getD "year"
  let prod_col := (findCand colsLower df.columns
    ["production_tonnes", "production", "production (tonnes)", "production (t)",
     "quantity"]).getD "production_tonnes"
  let state_col := (findCand colsLower df.columns ["state", "st", "state_name"]).getD "state"
  let crop_col := (findCand colsLower df.columns ["crop", "commodity", "crop_name"]).getD "crop"
  let df1 :=
    match df.colIdx? year_col with
    | some yi => df.mapRowsAt yi (fun r => coerceCell (getCell r yi))
    | none => df
  let maxYear? :=
    match df.colIdx? year_col with
    | some yi => yearsTruncMax? (df.colCells yi)
    | none => none
  let df2 :=
    match df.colIdx? year_col, maxYear? with
    | some yi, some maxY =>
      if maxY ≠ 0 then filterYearWindow df1 yi (maxY - last_n_years + 1) maxY else df1
    | _, _ => df1
  let dff :=
    match df2.colIdx? state_col with
    | some si => df2.filterRows (fun r => getCell r si == Cell.str state)
    | none => df2
  let dff2 :=
    match dff.colIdx? prod_col with
    | some pidx => dff.mapRowsAt pidx (fun r => Cell.num (((getCell r pidx).toNum?).getD 0))
    | none => ⟨dff.columns ++ [prod_col], dff.rows.map (fun r => r ++ [Cell.num 0])⟩
  (dff2, crop_col, prod_col)

/-- The embedding of `analytics.top_crops_by_volume`: prepare, then
`groupby(crop).sum()`, stable descending sort, `head(top_m)`. -/
def top_crops_by_volume (df : DataFrame) (state : String) (last_n_years : ℤ)
    (top_m : ℕ) : Except String DataFrame :=
  match top_crops_prepare df state last_n_years with
  | (dff2, crop_col, prod_col) =>
    match dff2.colIdx? crop_col with
    | none => .error ("KeyError: " ++ crop_col)
    | some ci =>
      let pidx := (dff2.colIdx? prod_col).getD 0
      let agg := dff2.groupbySum ci pidx
      let sorted := List.insertionSort (fun a b : Cell × ℚ => b.2 ≤ a.2) agg
      .ok ⟨[crop_col, prod_col], (sorted.take top_m).map (fun kv => [kv.1, Cell.num kv.2])⟩

/-! ## `analytics.production_trend` and ordinary least squares -/

/-- Python `str(cell)` as used by `astype(str)` before crop-name matching. -/
def cellStr : Cell → String
  | .str s => s
  | .num q => toString q
  | .na => "nan"

/-- Closed-form ordinary-least-squares line fit through `(x, y)` points
(`np.linalg.lstsq` on the design matrix `[x, 1]`), via the normal
equations. -/
def olsFit (pts : List (ℚ × ℚ)) : ℚ × ℚ :=
  let n : ℚ := (pts.length : ℚ)
  let sx := ratSum (pts.map Prod.fst)
  let sy := ratSum (pts.map Prod.snd)
  let sxx := ratSum (pts.map (fun p => p.1 * p.1))
  let sxy := ratSum (pts.map (fun p => p.1 * p.2))
  let m := (n * sxy - sx * sy) / (n * sxx - sx * sx)
  (m, (sy - m * sx) / n)

/-- Sum of squared residuals of the line `y = m*x + c` on the points. -/
def sse (pts : List (ℚ × ℚ)) (m c : ℚ) : ℚ :=
  ratSum (pts.map (fun p => (p.2 - (m * p.1 + c)) * (p.2 - (m * p.1 + c))))

/-- Year-keyed series from grouped sums: keep the numeric keys (all group
keys are numeric after year coercion, `NaN` keys having been dropped). -/
def tsOf (g : List (Cell × ℚ)) : List (ℚ × ℚ) :=
  g.filterMap (fun kv => (kv.1.toNum?).map (fun y => (y, kv.2)))

/-- The embedding of `analytics.production_trend`: the result is the
per-year series together with `(slope, intercept)`; `Except.error` models
the `KeyError` raised when the crop column is absent. -/
def production_trend (df : DataFrame) (crop_name : String)
    (region_filter : List (String × Cell) := []) :
    Except String (List (ℚ × ℚ) × ℚ × ℚ) :=
  let colsLower := df.columns.map lowerStr
  let year_col := (findCand colsLower df.columns ["year", "season"]).getD "year"
  let df1 :=
    if (findCand colsLower df.columns ["year", "season"]).isSome then df
    else ⟨df.columns ++ ["year"], df.rows.map (fun r => r ++ [Cell.na])⟩
  let crop_col := (findCand colsLower df.columns ["crop", "commodity"]).getD "crop"
  let prod_col := (findCand colsLower df.columns ["production_tonnes", "production"]).getD
    "production_tonnes"
  let df2 :=
    match df1.colIdx? prod_col with
    | some pidx => df1.mapRowsAt pidx (fun r => Cell.num (((getCell r pidx).toNum?).getD 0))
    | none => ⟨df1.columns ++ [prod_col], df1.rows.map (fun r => r ++ [Cell.num 0])⟩
  match df2.colIdx? crop_col with
  | none => .error ("KeyError: " ++ crop_col)
  | some ci =>
    let dff := df2.filterRows (fun r => lowerStr (cellStr (getCell r ci)) == lowerStr crop_name)
    let dff2 := region_filter.foldl (fun acc kv =>
      match acc.colIdx? kv.1 with
      | some i => acc.filterRows (fun r => getCell r i == kv.2)
      | none => acc) dff
    let yi := (dff2.colIdx? year_col).getD 0
    let dff3 := dff2.mapRowsAt yi (fun r => coerceCell (getCell r yi))
    let ts := tsOf (dff3.groupbySum yi ((dff3.colIdx? prod_col).getD 0))
    if ts.length ≥ 2 then
      let mc := olsFit ts
      .ok (ts, mc.1, mc.2)
    else
      .ok (ts, 0, ratSum (ts.map Prod.snd))

/-! ## `analytics.correlate_production_with_climate`

The `production_trend` call sits before the `try:` block in the source, so
its failure propagates (`Except.error`); everything after it is inside
`try ... except: pass` followed by a `(empty, None)` fall-through return.
The Pearson coefficient is `cov / sqrt(varx * vary)`; the embedding keeps
the exact triple `(cov, varx, vary)` over `ℚ` instead of the float. -/

/-- Centered second-moment sums `(cov, varx, vary)` of a paired series: the
exact content of the Pearson coefficient. -/
def pearsonStats (pts : List (ℚ × ℚ)) : ℚ × ℚ × ℚ :=
  let n : ℚ := (pts.length : ℚ)
  let mx := ratSum (pts.map Prod.fst) / n
  let my := ratSum (pts.map Prod.snd) / n
  (ratSum (pts.map (fun p => (p.1 - mx) * (p.2 - my))),
   ratSum (pts.map (fun p => (p.1 - mx) * (p.1 - mx))),
   ratSum (pts.map (fun p => (p.2 - my) * (p.2 - my))))

/-- The embedding of `analytics.correlate_production_with_climate`: returns
the merged `(year, production, climate)` rows and the optional correlation
statistics (`none` models `pearson_corr: None`), together with the
post-call state of the caller's climate frame — the source passes
`df_climate` into the un-copied `avg_annual_climate_metric`, whose in-place
year coercion writes through to the caller (the production frame is copied
inside `production_trend` and never mutated). -/
def correlate_production_with_climate (df_prod df_clim : DataFrame)
    (crop_name state : String) (last_n_years : ℤ) :
    Except String (List (ℚ × ℚ × Option ℚ) × Option (ℚ × ℚ × ℚ)) × DataFrame :=
  match production_trend df_prod crop_name [("state", Cell.str state)] with
  | .error e => (.error e, df_clim)
  | .ok (ts_prod, _, _) =>
    let res := avg_annual_climate_metric df_clim [state] none none last_n_years
    match res.1 with
    | .error _ => (.ok ([], none), res.2)
    | .ok (_, meta) =>
      let metric := meta.metric_column
      let df_c := res.2
      let colsLower := df_c.columns.map lowerStr
      match findCand colsLower df_c.columns ["year"], findCand colsLower df_c.columns ["state"],
          df_c.colIdx? metric with
      | some yc, some sc, some mi =>
        let yi := (df_c.colIdx? yc).getD 0
        let si := (df_c.colIdx? sc).getD 0
        let cagg := (df_c.filterRows (fun r => getCell r si == Cell.str state)).groupbyMean yi mi
        let merged := ts_prod.filterMap (fun yp =>
          (cagg.find? (fun km => km.1 == Cell.num yp.1)).map (fun km => (yp.1, yp.2, km.2)))
        let validPairs := merged.filterMap (fun t => (t.2.2).map (fun mv => (t.2.1, mv)))
        let corr := if merged.length ≥ 2 then some (pearsonStats validPairs) else none
        (.ok (merged, corr), res.2)
      | _, _, _ => (.ok ([], none), res.2)

/-! ## `loaders.py` fallback sample tables

Each loader returns these tables when no data file matches its filename
substring (`if not path:` branches). -/

/-- No-file fallback of `load_crop_production`. -/
def load_crop_production_fallback : DataFrame :=
  ⟨["year", "state", "district", "crop", "production_tonnes"],
   [[.num 2019, .str "StateA", .str "D1", .str "Wheat", .num 1300],
    [.num 2019, .str "StateB", .str "D2", .str "Rice", .num 2000]]⟩

/-- No-file fallback of `load_climate_temp_series`. -/
def load_climate_temp_series_fallback : DataFrame :=
  ⟨["year", "annual_mean_temp_c"],
   [[.num 2018, .num (26.5 : ℚ)], [.num 2019, .num (26.8 : ℚ)]]⟩

/-- No-file fallback of `load_yield_all_india`: the bare `pd.DataFrame()`. -/
def load_yield_all_india_fallback : DataFrame :=
  ⟨[], []⟩

/-! ## `query_executor.py` detection heuristics -/

/-- Does `hay` start with `needle`? -/
def startsWithChars : List Char → List Char → Bool
  | _, [] => true
  | [], _ :: _ => false
  | a :: as, b :: bs => a == b && startsWithChars as bs

/-- Substring containment on character lists. -/
def containsSubChars (needle : List Char) : List Char → Bool
  | [] => needle.isEmpty
  | c :: t => startsWithChars (c :: t) needle || containsSubChars needle t

/-- Python `needle in hay` on strings. -/
def containsSub (hay needle : String) : Bool :=
  containsSubChars needle.data hay.data

/-- Normalized-name view of a frame: the frame with canonicalized column
names (`df.rename(columns={orig: norm(orig)})` in `_normalize_columns`). -/
def normalizeFrame (df : DataFrame) : DataFrame :=
  ⟨df.columns.map normName, df.rows⟩

/-- Reverse map from a normalized name back to the original column name —
`{norm(c): c for c in df.columns}`, where a later column overwrites an
earlier one on collision. -/
def colMapLookup (df : DataFrame) (n : String) : Option String :=
  (((df.columns.map (fun c => (normName c, c))).reverse).find? (fun p => p.1 == n)).map
    Prod.snd

/-- The embedding of `query_executor._is_year_like_series`: at least three
parseable values, all within `[1800, 2100]` after int truncation of the
min and max. -/
def is_year_like_series (cells : List Cell) : Bool :=
  let nums := numsOf cells
  if nums.length < 3 then false
  else
    match nums.min?, nums.max? with
    | some mn, some mx =>
      decide ((1800 : ℤ) ≤ pyTrunc mn) && decide (pyTrunc mn ≤ pyTrunc mx) &&
        decide (pyTrunc mx ≤ (2100 : ℤ))
    | _, _ => false

/-- The embedding of `query_executor._find_annual_min_max_candidates`:
token heuristics on normalized names. The first loop has no `break`, so the
last matching column wins; the fallback loops break on the first match. -/
def find_annual_min_max_candidates (dfn : DataFrame) : Option String × Option String :=
  let minC0 := (dfn.columns.filter (fun nc =>
    containsSub nc "annual" && containsSub nc "min")).getLast?
  let maxC0 := (dfn.columns.filter (fun nc =>
    containsSub nc "annual" && containsSub nc "max")).getLast?
  let minC :=
    match minC0 with
    | some m => some m
    | none => dfn.columns.find? (fun nc => containsSub nc "min" &&
        (containsSub nc "temp" || containsSub nc "temperature" || containsSub nc "deg"))
  let maxC :=
    match maxC0 with
    | some m => some m
    | none => dfn.columns.find? (fun nc => containsSub nc "max" &&
        (containsSub nc "temp" || containsSub nc "temperature" || containsSub nc "deg"))
  (minC, maxC)

/-- The plausible numeric candidate columns collected by
`_fallback_numeric_pair`: name not containing "year", at least three
parseable values, and mean within the plausible temperature range
`[-60, 80]`; each candidate is paired with its mean. -/
def numericCandidates (dfn : DataFrame) : List (String × ℚ) :=
  dfn.columns.filterMap (fun nc =>
    if containsSub nc "year" then none
    else
      match dfn.colIdx? nc with
      | some i =>
        let nums := numsOf (dfn.colCells i)
        if nums.length ≥ 3 then
          let m := ratSum nums / (nums.length : ℚ)
          if decide ((-60 : ℚ) ≤ m) && decide (m ≤ (80 : ℚ)) then some (nc, m) else none
        else none
      | none => none)

/-- The embedding of `query_executor._fallback_numeric_pair`: one candidate
is used alone; two or more are sorted by mean (stably) and the extremes
taken; zero candidates fail. -/
def fallback_numeric_pair (dfn : DataFrame) : Option String × Option String :=
  let cands := numericCandidates dfn
  if cands.length == 1 then (cands.head?.map Prod.fst, none)
  else if 2 ≤ cands.length then
    let sorted := List.insertionSort (fun a b : String × ℚ => a.2 ≤ b.2) cands
    (sorted.head?.map Prod.fst, sorted.getLast?.map Prod.fst)
  else (none, none)

/-- First-occurrence-order deduplication (pandas `Series.unique()`). -/
def dedupKeepFirst [DecidableEq α] (l : List α) : List α :=
  l.foldl (fun acc x => if acc.contains x then acc else acc ++ [x]) []

/-- The debug trail carried in `meta_debug` of
`_compute_national_climate_avg`. -/
structure NatDebug where
  columns_sample : Option (List String)
  rows_sample : Option (List (List Cell))
  detection_notes : List String
  available_years_sample : Option (List ℤ)
  deriving DecidableEq, Repr

/-- The meta record of `_compute_national_climate_avg`: detection fields are
`none` on the failure paths, where only the debug trail is populated. -/
structure NatMeta where
  years_used : Option (ℤ × ℤ)
  year_column : Option String
  min_col : Option String
  max_col : Option String
  rows_used : Option (List (List Cell))
  debug : NatDebug
  deriving DecidableEq, Repr

/-- Year-column detection step of `_compute_national_climate_avg` on the
normalized frame: the literal `"year"` name, then a stripped-name match,
then the value-shape fallback (which also contributes a diagnostic note). -/
def natYearFound (dfn : DataFrame) : Option String × List String :=
  let yearNamed : Option String :=
    if dfn.columns.contains "year" then some "year"
    else dfn.columns.find? (fun nc => stripName nc == "year")
  match yearNamed with
  | some y => (some y, [])
  | none =>
    match dfn.columns.find? (fun nc =>
        match dfn.colIdx? nc with
        | some i => is_year_like_series (dfn.colCells i)
        | none => false) with
    | some y => (some y, ["Using numeric-like column '" ++ y ++ "' as year"])
    | none => (none, [])

/-- Annual-min/max detection step of `_compute_national_climate_avg`:
token candidates first, then the numeric fallback (which contributes a
diagnostic note). -/
def natMinMaxFound (dfn : DataFrame) : (Option String × Option String) × List String :=
  let mm0 := find_annual_min_max_candidates dfn
  if mm0.1.isNone && mm0.2.isNone then
    (fallback_numeric_pair dfn,
     ["No 'annual min/max' tokens found — trying numeric fallback"])
  else (mm0, [])

/-- The embedding of `query_executor._compute_national_climate_avg`. The
input is `Option DataFrame` (`None` from a failed loader); the
`isinstance` guard of the source is unrepresentable here and is subsumed by
the `none` case. Returns `(result?, meta)`; `result? = none` models the
`return None, meta_debug` failure paths. -/
def compute_national_climate_avg (dfIn : Option DataFrame) (last_n_years : ℤ) :
    Option DataFrame × NatMeta :=
  match dfIn with
  | none =>
    (none, ⟨none, none, none, none, none, ⟨none, none, ["climate loader returned None"], none⟩⟩)
  | some df =>
    if df.rows.isEmpty || df.columns.isEmpty then
      (none, ⟨none, none, none, none, none,
        ⟨some df.columns, none, ["climate DataFrame empty"], none⟩⟩)
    else
      let dfn := normalizeFrame df
      match natYearFound dfn with
      | (none, notes1) =>
        (none, ⟨none, none, none, none, none,
          ⟨some df.columns, some (df.rows.take 10),
           notes1 ++ ["No year-like column found"], none⟩⟩)
      | (some year_col_norm, notes1) =>
        match natMinMaxFound dfn with
        | (mm, notes2) =>
        if mm.1.isNone && mm.2.isNone then
          (none, ⟨none, none, none, none, none,
            ⟨some df.columns, some (df.rows.take 10),
             notes1 ++ notes2 ++ ["No candidate min/max columns found even after fallback"],
             none⟩⟩)
        else
          let year_col_orig := (colMapLookup df year_col_norm).getD year_col_norm
          let min_col_orig := mm.1.bind (colMapLookup df)
          let max_col_orig := mm.2.bind (colMapLookup df)
          let yi := (df.colIdx? year_col_orig).getD 0
          let dfw0 := df.mapRowsAt yi (fun r => coerceCell (getCell r yi))
          let dfw :=
            match min_col_orig, max_col_orig with
            | some mc, some xc =>
              let mi := (df.colIdx? mc).getD 0
              let xi := (df.colIdx? xc).getD 0
              dfw0.assignCol "annual_mean_temp_c" (fun r =>
                match (getCell r mi).toNum?, (getCell r xi).toNum? with
                | some a, some b => .num ((a + b) / 2)
                | _, _ => .na)
            | _, _ =>
              let uc := (min_col_orig.orElse (fun _ => max_col_orig)).getD ""
              let ui := (df.colIdx? uc).getD 0
              dfw0.assignCol "annual_mean_temp_c" (fun r => coerceCell (getCell r ui))
          match yearsTruncMax? (dfw.colCells yi) with
          | none =>
            (none, ⟨none, none, none, none, none,
              ⟨some df.columns, some (df.rows.take 10),
               notes1 ++ notes2 ++
                 ["Year column '" ++ year_col_orig ++ "' could not be coerced to numeric"],
               none⟩⟩)
          | some max_year =>
            let min_year := max_year - last_n_years + 1
            let sel := filterYearWindow dfw yi min_year max_year
            if sel.rows.isEmpty then
              (none, ⟨none, none, none, none, none,
                ⟨some df.columns, some (df.rows.take 10),
                 notes1 ++ notes2 ++
                   ["No rows in year range " ++ toString min_year ++ ".." ++ toString max_year],
                 some ((dedupKeepFirst ((numsOf (dfw.colCells yi)).map pyTrunc)).take 10)⟩⟩)
            else
              let ai := (sel.colIdx? "annual_mean_temp_c").getD 0
              let avg_val := meanCells (sel.colCells ai)
              let out : DataFrame :=
                ⟨["region", "avg_annual_mean_temp_c"], [[.str "All India", cellOfMean avg_val]]⟩
              let rows_used := (sel.rows.map (fun r => [getCell r yi, getCell r ai])).filter
                (fun pr => pr.all (fun c => !(c == Cell.na)))
              (some out, ⟨some (min_year, max_year), some year_col_orig, min_col_orig,
                max_col_orig, some rows_used,
                ⟨some df.columns, some (df.rows.take 10), notes1 ++ notes2, none⟩⟩)

/-! ## Claim-specific definitions -/

/-- A table "missing all of the year/region/crop/metric columns": no column
name (lowercased) is any of the year, state, crop or production/metric
candidates used by the analytics layer; no normalized column name is
`"year"` (even after stripping); and no column has three or more parseable
numeric values (so the value-shape year fallback cannot fire either). -/
def MissingAllRoles (df : DataFrame) : Prop :=
  (∀ c ∈ df.columns, lowerStr c ∉
    (["year", "yy", "yr", "season", "reporting_year"] : List String)) ∧
  (∀ c ∈ df.columns, lowerStr c ∉
    (["state", "region", "subdivision", "district", "st", "state_name"] : List String)) ∧
  (∀ c ∈ df.columns, lowerStr c ∉ (["crop", "commodity", "crop_name"] : List String)) ∧
  (∀ c ∈ df.columns, lowerStr c ∉
    (["production_tonnes", "production", "production (tonnes)", "production (t)",
      "quantity", "annual_mean_temp_c", "annual_temp", "annual_mean_temp",
      "annual_rainfall_mm", "rainfall_mm", "mean_temp_c"] : List String)) ∧
  (∀ c ∈ df.columns, normName c ≠ "year" ∧ stripName (normName c) ≠ "year") ∧
  (∀ i < df.columns.length, (numsOf (df.colCells i)).length < 3)

/-- The year-column index `avg_annual_climate_metric` detects (if any). -/
def avgYearIdx? (df : DataFrame) (year_col_candidates : Option (List String)) : Option ℕ :=
  (findCand (df.columns.map lowerStr) df.columns (year_col_candidates.getD avgYearCands)).bind
    df.colIdx?

/-- Summed production read back from a result row of `top_crops_by_volume`
(column 1 of the two-column result). -/
def rowVal (r : List Cell) : ℚ :=
  ((getCell r 1).toNum?).getD 0

instance : IsTotal (String × ℚ) (fun a b => a.2 ≤ b.2) :=
  ⟨fun a b => le_total a.2 b.2⟩

instance : IsTrans (String × ℚ) (fun a b => a.2 ≤ b.2) :=
  ⟨fun _ _ _ hab hbc => le_trans hab hbc⟩

instance : IsTotal (Cell × ℚ) (fun a b => b.2 ≤ a.2) :=
  ⟨fun a b => le_total b.2 a.2⟩

instance : IsTrans (Cell × ℚ) (fun a b => b.2 ≤ a.2) :=
  ⟨fun _ _ _ hab hbc => le_trans hbc hab⟩

/-! # Supporting lemmas -/
/-! ## Character-level facts about `Char.toLower` -/

theorem toNat_ofNat_valid (n : ℕ) (h : n.isValidChar) : (Char.ofNat n).toNat = n := by
  simp [Char.ofNat, h, Char.ofNatAux, Char.toNat, UInt32.toNat, BitVec.toNat_ofNatLt]

theorem charEq_iff_toNat (c d : Char) : (c = d) ↔ c.toNat = d.toNat := by
  constructor
  · intro h; rw [h]
  · intro h; exact Char.eq_of_val_eq (UInt32.ext h)

theorem isPunctChar_iff (c : Char) : isPunctChar c = true ↔
    (c.toNat = 45 ∨ c.toNat = 95 ∨ c.toNat = 47 ∨ c.toNat = 92 ∨ c.toNat = 40 ∨
     c.toNat = 41 ∨ c.toNat = 44) := by
  simp only [isPunctChar, Bool.or_eq_true, beq_iff_eq, charEq_iff_toNat,
    show ('-').toNat = 45 from rfl, show ('_').toNat = 95 from rfl,
    show ('/').toNat = 47 from rfl, show ('\\').toNat = 92 from rfl,
    show ('(').toNat = 40 from rfl, show (')').toNat = 41 from rfl,
    show (',').toNat = 44 from rfl]
  tauto

theorem isSpaceChar_iff (c : Char) : isSpaceChar c = true ↔
    (c.toNat = 32 ∨ c.toNat = 9 ∨ c.toNat = 10 ∨ c.toNat = 13 ∨ c.toNat = 11 ∨
     c.toNat = 12) := by
  simp only [isSpaceChar, Bool.or_eq_true, beq_iff_eq, charEq_iff_toNat,
    show (' ').toNat = 32 from rfl, show ('\t').toNat = 9 from rfl,
    show ('\n').toNat = 10 from rfl, show ('\r').toNat = 13 from rfl,
    show ('\x0b').toNat = 11 from rfl, show ('\x0c').toNat = 12 from rfl]
  tauto

theorem isPunct_toLower (c : Char) : isPunctChar c.toLower = isPunctChar c := by
  show isPunctChar (if c.toNat ≥ 65 ∧ c.toNat ≤ 90 then Char.ofNat (c.toNat + 32) else c)
      = isPunctChar c
  split
  · next h =>
    have h1 : (Char.ofNat (c.toNat + 32)).toNat = c.toNat + 32 :=
      toNat_ofNat_valid _ (Or.inl (by omega))
    have e1 : isPunctChar (Char.ofNat (c.toNat + 32)) = false := by
      rw [← Bool.not_eq_true, isPunctChar_iff, h1]; omega
    have e2 : isPunctChar c = false := by
      rw [← Bool.not_eq_true, isPunctChar_iff]; omega
    rw [e1, e2]
  · rfl

theorem isSpace_toLower (c : Char) : isSpaceChar c.toLower = isSpaceChar c := by
  show isSpaceChar (if c.toNat ≥ 65 ∧ c.toNat ≤ 90 then Char.ofNat (c.toNat + 32) else c)
      = isSpaceChar c
  split
  · next h =>
    have h1 : (Char.ofNat (c.toNat + 32)).toNat = c.toNat + 32 :=
      toNat_ofNat_valid _ (Or.inl (by omega))
    have e1 : isSpaceChar (Char.ofNat (c.toNat + 32)) = false := by
      rw [← Bool.not_eq_true, isSpaceChar_iff, h1]; omega
    have e2 : isSpaceChar c = false := by
      rw [← Bool.not_eq_true, isSpaceChar_iff]; omega
    rw [e1, e2]
  · rfl

theorem toLower_idem (c : Char) : c.toLower.toLower = c.toLower := by
  show Char.toLower (if c.toNat ≥ 65 ∧ c.toNat ≤ 90 then Char.ofNat (c.toNat + 32) else c)
      = (if c.toNat ≥ 65 ∧ c.toNat ≤ 90 then Char.ofNat (c.toNat + 32) else c)
  split
  · next h =>
    have h1 : (Char.ofNat (c.toNat + 32)).toNat = c.toNat + 32 :=
      toNat_ofNat_valid _ (Or.inl (by omega))
    show (if (Char.ofNat (c.toNat + 32)).toNat ≥ 65 ∧ (Char.ofNat (c.toNat + 32)).toNat ≤ 90
        then Char.ofNat ((Char.ofNat (c.toNat + 32)).toNat + 32)
        else Char.ofNat (c.toNat + 32)) = _
    rw [if_neg (by omega)]
  · next h =>
    show (if c.toNat ≥ 65 ∧ c.toNat ≤ 90 then Char.ofNat (c.toNat + 32) else c) = c
    rw [if_neg h]

/-! ## List-level facts about run collapsing and stripping -/

theorem collapseAux_map (p : Char → Bool) (f : Char → Char)
    (hp : ∀ c, p (f c) = p c) (hf : f ' ' = ' ') :
    ∀ (b : Bool) (l : List Char),
      collapseAux p b (l.map f) = (collapseAux p b l).map f := by
  intro b l
  induction l generalizing b with
  | nil => rfl
  | cons c rest ih =>
    simp only [List.map_cons, collapseAux, hp c]
    by_cases hpc : p c = true
    · cases b <;> simp [hpc, ih, hf]
    · simp [hpc, ih]

theorem pyStrip_map (f : Char → Char) (hS : ∀ c, isSpaceChar (f c) = isSpaceChar c)
    (l : List Char) : pyStrip (l.map f) = (pyStrip l).map f := by
  have hd : ∀ (m : List Char),
      (m.map f).dropWhile isSpaceChar = (m.dropWhile isSpaceChar).map f := by
    intro m
    rw [List.dropWhile_map]
    have hfe : (isSpaceChar ∘ f) = isSpaceChar := funext hS
    rw [hfe]
  unfold pyStrip
  rw [hd, ← List.map_reverse, hd, ← List.map_reverse]

theorem mem_collapseAux (p : Char → Bool) :
    ∀ (l : List Char) (b : Bool) (x : Char), x ∈ collapseAux p b l →
      x = ' ' ∨ (x ∈ l ∧ p x = false) := by
  intro l
  induction l with
  | nil => intro b x hx; simp [collapseAux] at hx
  | cons c rest ih =>
    intro b x hx
    by_cases hpc : p c = true
    · cases b with
      | true =>
        simp only [collapseAux, hpc, if_true] at hx
        rcases ih true x hx with h | ⟨h1, h2⟩
        · exact Or.inl h
        · exact Or.inr ⟨List.mem_cons_of_mem _ h1, h2⟩
      | false =>
        simp only [collapseAux, hpc, if_true] at hx
        rcases List.mem_cons.mp hx with h | h
        · exact Or.inl h
        · rcases ih true x h with h' | ⟨h1, h2⟩
          · exact Or.inl h'
          · exact Or.inr ⟨List.mem_cons_of_mem _ h1, h2⟩
    · simp only [collapseAux, hpc, if_false] at hx
      rcases List.mem_cons.mp hx with h | h
      · subst h
        exact Or.inr ⟨List.mem_cons_self _ _, by simpa using hpc⟩
      · rcases ih false x h with h' | ⟨h1, h2⟩
        · exact Or.inl h'
        · exact Or.inr ⟨List.mem_cons_of_mem _ h1, h2⟩

theorem collapseAux_eq_self_of_not (p : Char → Bool) :
    ∀ (l : List Char), (∀ c ∈ l, p c = false) → collapseAux p false l = l := by
  intro l
  induction l with
  | nil => intro _; rfl
  | cons c rest ih =>
    intro h
    have hc : p c = false := h c (List.mem_cons_self _ _)
    simp only [collapseAux, hc, Bool.false_eq_true, if_false, List.cons.injEq, true_and]
    exact ih (fun d hd => h d (List.mem_cons_of_mem _ hd))

theorem collapseAux_chain (p : Char → Bool) :
    ∀ (l : List Char),
      (collapseAux p false l).Chain' (fun a b => ¬(p a = true ∧ p b = true)) ∧
      (' ' :: collapseAux p true l).Chain' (fun a b => ¬(p a = true ∧ p b = true)) := by
  intro l
  induction l with
  | nil =>
    constructor
    · exact List.chain'_nil
    · exact List.chain'_singleton _
  | cons c rest ih =>
    by_cases hpc : p c = true
    · constructor
      · simpa only [collapseAux, hpc, if_true] using ih.2
      · simpa only [collapseAux, hpc, if_true] using ih.2
    · have hcons : (c :: collapseAux p false rest).Chain'
          (fun a b => ¬(p a = true ∧ p b = true)) := by
        rw [List.chain'_cons']
        refine ⟨fun y _ => ?_, ih.1⟩
        simp [hpc]
      constructor
      · simpa only [collapseAux, hpc, if_false] using hcons
      · simp only [collapseAux, hpc, Bool.false_eq_true, if_false]
        rw [List.chain'_cons']
        refine ⟨fun y hy => ?_, hcons⟩
        simp only [List.head?_cons, Option.mem_def, Option.some.injEq] at hy
        subst hy
        simp [hpc]

theorem collapseAux_fixed (p : Char → Bool) :
    ∀ (l : List Char), (∀ c ∈ l, p c = true → c = ' ') →
      l.Chain' (fun a b => ¬(p a = true ∧ p b = true)) →
      collapseAux p false l = l := by
  intro l
  induction l with
  | nil => intro _ _; rfl
  | cons c rest ih =>
    intro hmem hch
    by_cases hpc : p c = true
    · have hc : c = ' ' := hmem c (List.mem_cons_self _ _) hpc
      cases rest with
      | nil => subst hc; simp [collapseAux, hpc]
      | cons d r =>
        have hRd : ¬(p c = true ∧ p d = true) := (List.chain'_cons.mp hch).1
        have hd : p d = false := by
          rcases Bool.eq_false_or_eq_true (p d) with h | h
          · exact absurd ⟨hpc, h⟩ hRd
          · exact h
        have e : collapseAux p true (d :: r) = collapseAux p false (d :: r) := by
          simp [collapseAux, hd]
        have etail : collapseAux p false (d :: r) = d :: r :=
          ih (fun x hx hpx => hmem x (List.mem_cons_of_mem _ hx) hpx)
            (List.chain'_cons.mp hch).2
        subst hc
        have step : collapseAux p false (' ' :: d :: r) = ' ' :: collapseAux p true (d :: r) := by
          simp [collapseAux, hpc]
        rw [step, e, etail]
    · have etail : collapseAux p false rest = rest :=
        ih (fun x hx hpx => hmem x (List.mem_cons_of_mem _ hx) hpx)
          ((List.chain'_cons'.mp hch).2)
      simp [collapseAux, hpc, etail]

theorem pyStrip_isInfixOf (l : List Char) : pyStrip l <:+: l := by
  unfold pyStrip
  have h1 : l.dropWhile isSpaceChar <:+ l := List.dropWhile_suffix _
  have h2 : ((l.dropWhile isSpaceChar).reverse.dropWhile isSpaceChar) <:+
      (l.dropWhile isSpaceChar).reverse := List.dropWhile_suffix _
  have h3 : ((l.dropWhile isSpaceChar).reverse.dropWhile isSpaceChar).reverse <+:
      l.dropWhile isSpaceChar := by
    rw [← List.reverse_suffix]
    simpa using h2
  exact h3.isInfix.trans h1.isInfix

/-! ## The renormalization equation -/

theorem map_toLower_idem (l : List Char) :
    (l.map Char.toLower).map Char.toLower = l.map Char.toLower := by
  rw [List.map_map]
  exact List.map_congr_left (fun c _ => toLower_idem c)

theorem normChars_renorm (l : List Char) :
    normChars (normChars l) = pyStrip (normChars l) := by
  have hPmap : ∀ m : List Char,
      replRuns isPunctChar (m.map Char.toLower) = (replRuns isPunctChar m).map Char.toLower :=
    fun m => collapseAux_map isPunctChar Char.toLower isPunct_toLower rfl false m
  have hSmap : ∀ m : List Char,
      replRuns isSpaceChar (m.map Char.toLower) = (replRuns isSpaceChar m).map Char.toLower :=
    fun m => collapseAux_map isSpaceChar Char.toLower isSpace_toLower rfl false m
  set W : List Char := replRuns isPunctChar (pyStrip l) with hW
  set Z : List Char := replRuns isSpaceChar W with hZ
  have hZmem : ∀ x ∈ Z, x = ' ' ∨ (x ∈ W ∧ isSpaceChar x = false) := by
    intro x hx; exact mem_collapseAux isSpaceChar W false x hx
  have hWnop : ∀ x ∈ W, isPunctChar x = false := by
    intro x hx
    rcases mem_collapseAux isPunctChar (pyStrip l) false x hx with h | ⟨_, h2⟩
    · subst h; rfl
    · exact h2
  have hZnop : ∀ x ∈ Z, isPunctChar x = false := by
    intro x hx
    rcases hZmem x hx with h | ⟨h1, _⟩
    · subst h; rfl
    · exact hWnop x h1
  have hstripZ : ∀ x ∈ pyStrip Z, x ∈ Z := fun x hx => (pyStrip_isInfixOf Z).subset hx
  -- strip commutes with lowercasing
  have hstripmap : pyStrip (Z.map Char.toLower) = (pyStrip Z).map Char.toLower :=
    pyStrip_map Char.toLower isSpace_toLower Z
  -- no punctuation survives in `pyStrip Z`
  have hP : replRuns isPunctChar (pyStrip Z) = pyStrip Z :=
    collapseAux_eq_self_of_not isPunctChar (pyStrip Z)
      (fun c hc => hZnop c (hstripZ c hc))
  -- `pyStrip Z` is already whitespace-collapsed
  have hS : replRuns isSpaceChar (pyStrip Z) = pyStrip Z := by
    apply collapseAux_fixed isSpaceChar (pyStrip Z)
    · intro c hc hsp
      rcases hZmem c (hstripZ c hc) with h | ⟨_, h2⟩
      · exact h
      · rw [hsp] at h2; exact absurd h2 (by simp)
    · exact List.Chain'.infix ((collapseAux_chain isSpaceChar W).1) (pyStrip_isInfixOf Z)
  show (replRuns isSpaceChar (replRuns isPunctChar (pyStrip (Z.map Char.toLower)))).map
      Char.toLower = pyStrip (Z.map Char.toLower)
  rw [hstripmap, hPmap, hP, hSmap, hS, map_toLower_idem]

theorem charListLe_total : ∀ a b, charListLe a b = true ∨ charListLe b a = true := by
  intro a
  induction a with
  | nil => intro b; left; rfl
  | cons x xs ih =>
    intro b
    cases b with
    | nil => right; rfl
    | cons y ys =>
      by_cases h1 : x.toNat < y.toNat
      · left; simp [charListLe, h1]
      · by_cases h2 : y.toNat < x.toNat
        · right; simp [charListLe, h2]
        · rcases ih ys with h | h
          · left; simp [charListLe, h1, h2, h]
          · right; simp [charListLe, h1, h2, h]

theorem charListLe_antisymm : ∀ a b, charListLe a b = true → charListLe b a = true → a = b := by
  intro a
  induction a with
  | nil =>
    intro b _ hba
    cases b with
    | nil => rfl
    | cons y ys => simp [charListLe] at hba
  | cons x xs ih =>
    intro b hab hba
    cases b with
    | nil => simp [charListLe] at hab
    | cons y ys =>
      by_cases h1 : x.toNat < y.toNat
      · simp [charListLe, h1, Nat.lt_asymm h1, Nat.ne_of_lt h1] at hba
      · by_cases h2 : y.toNat < x.toNat
        · simp [charListLe, h1, h2] at hab
        · have hxy : x = y := (charEq_iff_toNat x y).mpr (by omega)
          subst hxy
          simp only [charListLe, h1, if_false] at hab hba
          rw [ih ys hab hba]

theorem charListLe_trans : ∀ a b c, charListLe a b = true → charListLe b c = true →
    charListLe a c = true := by
  intro a
  induction a with
  | nil => intro b c _ _; rfl
  | cons x xs ih =>
    intro b c hab hbc
    cases b with
    | nil => simp [charListLe] at hab
    | cons y ys =>
      cases c with
      | nil => simp [charListLe] at hbc
      | cons z zs =>
        simp only [charListLe] at hab hbc ⊢
        by_cases h1 : x.toNat < y.toNat
        · by_cases h2 : y.toNat < z.toNat
          · rw [if_pos (by omega)]
          · by_cases h3 : z.toNat < y.toNat
            · simp [h2, h3] at hbc
            · rw [if_pos (by omega)]
        · by_cases h2 : y.toNat < x.toNat
          · simp [h1, h2] at hab
          · by_cases h3 : y.toNat < z.toNat
            · rw [if_pos (by omega)]
            · by_cases h4 : z.toNat < y.toNat
              · simp [h3, h4] at hbc
              · have hxz : ¬ x.toNat < z.toNat := by omega
                have hzx : ¬ z.toNat < x.toNat := by omega
                simp only [h1, if_false, h2, h3, h4, hxz, hzx] at hab hbc ⊢
                exact ih ys zs hab hbc

theorem cellLe_total : ∀ a b, cellLe a b = true ∨ cellLe b a = true := by
  intro a b
  cases a <;> cases b <;> simp [cellLe]
  · exact le_total _ _
  · exact charListLe_total _ _

theorem cellLe_antisymm : ∀ a b, cellLe a b = true → cellLe b a = true → a = b := by
  intro a b hab hba
  cases a <;> cases b <;> simp_all [cellLe, strLe]
  · exact le_antisymm hab hba
  · next s t =>
    have hd : s.data = t.data := charListLe_antisymm _ _ hab hba
    cases s; cases t
    exact congrArg String.mk hd

theorem cellLe_trans : ∀ a b c, cellLe a b = true → cellLe b c = true → cellLe a c = true := by
  intro a b c hab hbc
  cases a <;> cases b <;> cases c <;> simp_all [cellLe, strLe]
  · exact le_trans hab hbc
  · exact charListLe_trans _ _ _ hab hbc

/-- Strict version of a boolean order. -/
theorem mem_insertSorted (le : α → α → Bool)
    (hanti : ∀ a b, le a b = true → le b a = true → a = b) :
    ∀ (l : List α) (x z : α), z ∈ insertSorted le x l ↔ z = x ∨ z ∈ l := by
  intro l
  induction l with
  | nil => intro x z; simp [insertSorted]
  | cons y ys ih =>
    intro x z
    by_cases h1 : le x y = true
    · by_cases h2 : le y x = true
      · have hxy : x = y := hanti x y h1 h2
        subst hxy
        simp only [insertSorted, h1, if_true, List.mem_cons]
        tauto
      · have h2' : le y x = false := by rwa [Bool.not_eq_true] at h2
        simp only [insertSorted, h1, if_true, h2', Bool.false_eq_true, if_false, List.mem_cons]
    · have h1' : le x y = false := by rwa [Bool.not_eq_true] at h1
      simp only [insertSorted, h1', Bool.false_eq_true, if_false, List.mem_cons, ih]
      tauto

theorem pairwise_insertSorted (le : α → α → Bool)
    (htot : ∀ a b, le a b = true ∨ le b a = true)
    (hanti : ∀ a b, le a b = true → le b a = true → a = b)
    (htrans : ∀ a b c, le a b = true → le b c = true → le a c = true) :
    ∀ (l : List α) (x : α), l.Pairwise (bltOf le) →
      (insertSorted le x l).Pairwise (bltOf le) := by
  intro l
  induction l with
  | nil => intro x _; simp [insertSorted, bltOf]
  | cons y ys ih =>
    intro x hp
    have hpy := (List.pairwise_cons.mp hp).1
    have hpys := (List.pairwise_cons.mp hp).2
    by_cases h1 : le x y = true
    · by_cases h2 : le y x = true
      · simpa only [insertSorted, h1, if_true, h2] using hp
      · have h2' : le y x = false := by rwa [Bool.not_eq_true] at h2
        simp only [insertSorted, h1, if_true, h2', Bool.false_eq_true, if_false]
        refine List.pairwise_cons.mpr ⟨?_, hp⟩
        intro z hz
        rcases List.mem_cons.mp hz with hzy | hzys
        · subst hzy; exact ⟨h1, h2⟩
        · have hyz := hpy z hzys
          refine ⟨htrans x y z h1 hyz.1, ?_⟩
          intro hzx
          exact h2 (htrans y z x hyz.1 hzx)
    · have h2 : le y x = true := by
        rcases htot x y with h | h
        · exact absurd h h1
        · exact h
      have h1' : le x y = false := by rwa [Bool.not_eq_true] at h1
      simp only [insertSorted, h1', Bool.false_eq_true, if_false]
      refine List.pairwise_cons.mpr ⟨?_, ih x hpys⟩
      intro z hz
      rcases (mem_insertSorted le hanti ys x z).mp hz with hzx | hzys
      · subst hzx; exact ⟨h2, h1⟩
      · exact hpy z hzys

theorem sortDedup_pairwise (le : α → α → Bool)
    (htot : ∀ a b, le a b = true ∨ le b a = true)
    (hanti : ∀ a b, le a b = true → le b a = true → a = b)
    (htrans : ∀ a b c, le a b = true → le b c = true → le a c = true)
    (l : List α) : (sortDedup le l).Pairwise (bltOf le) := by
  induction l with
  | nil => exact List.Pairwise.nil
  | cons x xs ih => exact pairwise_insertSorted le htot hanti htrans _ x ih

theorem mem_sortDedup (le : α → α → Bool)
    (hanti : ∀ a b, le a b = true → le b a = true → a = b)
    (l : List α) (z : α) : z ∈ sortDedup le l ↔ z ∈ l := by
  induction l with
  | nil => simp [sortDedup]
  | cons x xs ih =>
    show z ∈ insertSorted le x (sortDedup le xs) ↔ _
    rw [mem_insertSorted le hanti, ih, List.mem_cons]

theorem pairwise_strict_unique (le : α → α → Bool) :
    ∀ (l₁ l₂ : List α), l₁.Pairwise (bltOf le) → l₂.Pairwise (bltOf le) →
      (∀ z, z ∈ l₁ ↔ z ∈ l₂) → l₁ = l₂ := by
  intro l₁
  induction l₁ with
  | nil =>
    intro l₂ _ _ hmem
    cases l₂ with
    | nil => rfl
    | cons b bs => exact absurd ((hmem b).mpr (List.mem_cons_self _ _)) (by simp)
  | cons a as ih =>
    intro l₂ hp1 hp2 hmem
    cases l₂ with
    | nil => exact absurd ((hmem a).mp (List.mem_cons_self _ _)) (by simp)
    | cons b bs =>
      have hab : a = b := by
        rcases List.mem_cons.mp ((hmem a).mp (List.mem_cons_self _ _)) with h | habs
        · exact h
        · rcases List.mem_cons.mp ((hmem b).mpr (List.mem_cons_self _ _)) with h | hbas
          · exact h.symm
          · have h1 := (List.pairwise_cons.mp hp1).1 b hbas
            have h2 := (List.pairwise_cons.mp hp2).1 a habs
            exact absurd h2.1 (fun hc => h1.2 hc)
      subst hab
      have htails : ∀ z, z ∈ as ↔ z ∈ bs := by
        intro z
        constructor
        · intro hz
          rcases List.mem_cons.mp ((hmem z).mp (List.mem_cons_of_mem _ hz)) with h | h
          · subst h
            exact absurd ((List.pairwise_cons.mp hp1).1 z hz)
              (fun hc => hc.2 hc.1)
          · exact h
        · intro hz
          rcases List.mem_cons.mp ((hmem z).mpr (List.mem_cons_of_mem _ hz)) with h | h
          · subst h
            exact absurd ((List.pairwise_cons.mp hp2).1 z hz)
              (fun hc => hc.2 hc.1)
          · exact h
      rw [ih bs (List.pairwise_cons.mp hp1).2 (List.pairwise_cons.mp hp2).2 htails]

theorem sortDedup_perm_inv (le : α → α → Bool)
    (htot : ∀ a b, le a b = true ∨ le b a = true)
    (hanti : ∀ a b, le a b = true → le b a = true → a = b)
    (htrans : ∀ a b c, le a b = true → le b c = true → le a c = true)
    {l₁ l₂ : List α} (h : l₁.Perm l₂) : sortDedup le l₁ = sortDedup le l₂ := by
  apply pairwise_strict_unique le _ _
    (sortDedup_pairwise le htot hanti htrans l₁)
    (sortDedup_pairwise le htot hanti htrans l₂)
  intro z
  rw [mem_sortDedup le hanti, mem_sortDedup le hanti]
  exact ⟨fun hz => h.mem_iff.mp hz, fun hz => h.mem_iff.mpr hz⟩

/-! # Claim theorems -/

/-- C4 (counterexample): the column-name canonicalization `norm` of
`_normalize_columns` is not idempotent: it strips before replacing
punctuation, so `norm "a-" = "a "` keeps a trailing space that a second
application removes. -/
theorem C4_norm_not_idempotent_cex :
    normName (normName "a-") ≠ normName "a-" ∧ normName "a-" = "a " ∧
    normName (normName "a-") = "a" := by
  refine ⟨?_, by decide, by decide⟩
  decide

/-- C4 (amended): renormalizing a canonicalized column name only strips the
boundary whitespace left by a leading/trailing punctuation run:
`norm (norm x) = strip (norm x)` for every string `x`; in particular `norm`
is idempotent exactly on names whose normalization has no boundary spaces,
and `norm ∘ norm` is idempotent. -/
theorem C4_renormalize_eq_strip (s : String) :
    normName (normName s) = stripName (normName s) :=
  congrArg String.mk (normChars_renorm s.data)

/-- C6 (counterexample): the all-India yield loader's no-file fallback is
the empty `pd.DataFrame()`, not a two-or-more-row sample table. -/
theorem C6_yield_fallback_empty_cex :
    load_yield_all_india_fallback.rows.length = 0 ∧
    ¬ 2 ≤ load_yield_all_india_fallback.rows.length := by
  decide

/-- C6 (amended): the crop-production and climate loaders fall back to
deterministic built-in sample tables with at least two synthetic rows, but
the all-India yield loader falls back to an empty table, so downstream
logic can receive an empty table from that loader. -/
theorem C6_fallback_shapes :
    2 ≤ load_crop_production_fallback.rows.length ∧
    2 ≤ load_climate_temp_series_fallback.rows.length ∧
    load_yield_all_india_fallback.rows = [] := by
  refine ⟨by decide, by decide, rfl⟩

set_option maxRecDepth 8000 in
/-- C8: `production_trend` fits an ordinary-least-squares line over the
grouped per-year sums: on exactly the two points (2018, 100), (2019, 120)
the slope is 20 and the intercept 100 − 20·2018 (and this line minimizes
the sum of squared errors); with a single year the slope is 0 and the
intercept the single sum; with no matching rows both are 0. -/
theorem C8_production_trend_ols :
    (production_trend
      ⟨["year", "crop", "production_tonnes"],
       [[.num 2018, .str "Wheat", .num 100], [.num 2019, .str "Wheat", .num 120]]⟩
      "wheat" [] = .ok ([(2018, 100), (2019, 120)], 20, 100 - 20 * 2018)) ∧
    (∀ m c : ℚ, sse [(2018, 100), (2019, 120)] 20 (100 - 20 * 2018) ≤
      sse [(2018, 100), (2019, 120)] m c) ∧
    (production_trend
      ⟨["year", "crop", "production_tonnes"], [[.num 2018, .str "Wheat", .num 100]]⟩
      "wheat" [] = .ok ([(2018, 100)], 0, 100)) ∧
    (production_trend
      ⟨["year", "crop", "production_tonnes"], [[.num 2018, .str "Rice", .num 100]]⟩
      "wheat" [] = .ok ([], 0, 0)) := by
  refine ⟨by with_unfolding_all rfl, ?_, by with_unfolding_all rfl, by with_unfolding_all rfl⟩
  intro m c
  have h0 : sse [((2018 : ℚ), (100 : ℚ)), (2019, 120)] 20 (100 - 20 * 2018) = 0 := by
    with_unfolding_all rfl
  rw [h0]
  show (0 : ℚ) ≤ sse _ m c
  unfold sse ratSum
  simp only [List.map_cons, List.map_nil, List.foldl_cons, List.foldl_nil, zero_add]
  nlinarith [mul_self_nonneg ((100 : ℚ) - (m * 2018 + c)),
    mul_self_nonneg ((120 : ℚ) - (m * 2019 + c))]

/-- C10: whenever `_compute_national_climate_avg` returns no result, the
meta record's `detection_notes` list is non-empty — every failure path
appends at least one diagnostic note before returning. -/
theorem C10_failure_implies_notes (dfIn : Option DataFrame) (N : ℤ)
    (h : (compute_national_climate_avg dfIn N).1 = none) :
    (compute_national_climate_avg dfIn N).2.debug.detection_notes ≠ [] := by
  rcases hEq : compute_national_climate_avg dfIn N with ⟨res, meta⟩
  rw [hEq] at h
  replace h : res = none := h
  subst h
  show meta.debug.detection_notes ≠ []
  match dfIn with
  | none =>
    simp only [compute_national_climate_avg, Prod.mk.injEq] at hEq
    rw [← hEq.2]
    simp
  | some df =>
    simp only [compute_national_climate_avg] at hEq
    repeat' split at hEq
    any_goals (rw [Prod.mk.injEq] at hEq; rw [← hEq.2]; simp; done)
    all_goals exact absurd (congrArg Prod.fst hEq) (by simp)

/-- C10 (witness): the `None`-input failure path produces the note. -/
theorem C10_witness :
    (compute_national_climate_avg none 5).2.debug.detection_notes ≠ [] :=
  C10_failure_implies_notes none 5 (by rfl)

/-! ## Pairwise extremal lemmas for sorted candidate lists -/

theorem pairwise_head_rel {α : Type _} (r : α → α → Prop) (hrefl : ∀ a, r a a) :
    ∀ (l : List α) (hne : l ≠ []), l.Pairwise r → ∀ c ∈ l, r (l.head hne) c := by
  intro l
  cases l with
  | nil => intro hne; exact absurd rfl hne
  | cons x t =>
    intro hne hp c hc
    rcases List.mem_cons.mp hc with h | h
    · subst h; exact hrefl _
    · exact (List.pairwise_cons.mp hp).1 c h

theorem pairwise_getLast_rel {α : Type _} (r : α → α → Prop) (hrefl : ∀ a, r a a) :
    ∀ (l : List α) (hne : l ≠ []), l.Pairwise r → ∀ c ∈ l, r c (l.getLast hne) := by
  intro l
  induction l with
  | nil => intro hne; exact absurd rfl hne
  | cons x t ih =>
    intro hne hp c hc
    cases t with
    | nil =>
      rcases List.mem_singleton.mp hc with h
      subst h
      exact hrefl c
    | cons y s =>
      rw [List.getLast_cons (by simp)]
      rcases List.mem_cons.mp hc with h | h
      · subst h
        exact (List.pairwise_cons.mp hp).1 _ (List.getLast_mem _)
      · exact ih (by simp) (List.pairwise_cons.mp hp).2 c h

/-- C3 (counterexample): with three plausible numeric candidate columns the
fallback does not fail — it guesses, returning the lowest-mean column as
min and the highest-mean column as max. -/
theorem C3_three_candidates_cex :
    (numericCandidates
      ⟨["a", "b", "c"],
       [[.num 10, .num 20, .num 30], [.num 10, .num 20, .num 30],
        [.num 10, .num 20, .num 30]]⟩).length = 3 ∧
    fallback_numeric_pair
      ⟨["a", "b", "c"],
       [[.num 10, .num 20, .num 30], [.num 10, .num 20, .num 30],
        [.num 10, .num 20, .num 30]]⟩ ≠ (none, none) ∧
    fallback_numeric_pair
      ⟨["a", "b", "c"],
       [[.num 10, .num 20, .num 30], [.num 10, .num 20, .num 30],
        [.num 10, .num 20, .num 30]]⟩ = (some "a", some "c") := by
  refine ⟨by with_unfolding_all decide, by with_unfolding_all decide,
    by with_unfolding_all rfl⟩

/-- C3 (amended): the annual-min/max numeric fallback uses a single
plausible candidate directly; with two **or more** candidates it treats the
lowest-mean column as min and the highest-mean column as max (averaged
downstream); it fails — reporting a note through the failure path — only
when zero candidates remain. -/
theorem C3_fallback_pair_amended (dfn : DataFrame) :
    (numericCandidates dfn = [] → fallback_numeric_pair dfn = (none, none)) ∧
    (∀ c, numericCandidates dfn = [c] → fallback_numeric_pair dfn = (some c.1, none)) ∧
    (2 ≤ (numericCandidates dfn).length →
      ∃ lo hi, lo ∈ numericCandidates dfn ∧ hi ∈ numericCandidates dfn ∧
        fallback_numeric_pair dfn = (some lo.1, some hi.1) ∧
        ∀ c ∈ numericCandidates dfn, lo.2 ≤ c.2 ∧ c.2 ≤ hi.2) := by
  refine ⟨?_, ?_, ?_⟩
  · intro h
    unfold fallback_numeric_pair
    rw [h]
    rfl
  · intro c h
    unfold fallback_numeric_pair
    rw [h]
    rfl
  · intro hlen
    have hperm := List.perm_insertionSort (fun x y : String × ℚ => x.2 ≤ y.2)
      (numericCandidates dfn)
    set sorted := List.insertionSort (fun x y : String × ℚ => x.2 ≤ y.2)
      (numericCandidates dfn) with hsorted
    have hne : sorted ≠ [] := by
      intro hcon
      have hl := hperm.length_eq
      rw [hcon] at hl
      simp at hl
      omega
    have hsortedp : sorted.Pairwise (fun x y : String × ℚ => x.2 ≤ y.2) :=
      List.sorted_insertionSort _ _
    refine ⟨sorted.head hne, sorted.getLast hne, ?_, ?_, ?_, ?_⟩
    · exact hperm.subset (List.head_mem hne)
    · exact hperm.subset (List.getLast_mem hne)
    · unfold fallback_numeric_pair
      rw [if_neg (by simp; omega), if_pos hlen, ← hsorted]
      show (sorted.head?.map Prod.fst, sorted.getLast?.map Prod.fst) = _
      rw [List.head?_eq_head hne, List.getLast?_eq_getLast _ hne]
      rfl
    · intro c hcmem
      have hcs : c ∈ sorted := hperm.mem_iff.mpr hcmem
      constructor
      · exact pairwise_head_rel (fun x y : String × ℚ => x.2 ≤ y.2)
          (fun a => le_refl a.2) sorted hne hsortedp c hcs
      · exact pairwise_getLast_rel (fun x y : String × ℚ => x.2 ≤ y.2)
          (fun a => le_refl a.2) sorted hne hsortedp c hcs

/-- C3 (witness): the three behaviours at concrete tables — no candidates,
one candidate (used directly), three candidates (extremes guessed). -/
theorem C3_witness :
    fallback_numeric_pair ⟨["a"], [[.str "x"], [.str "y"], [.str "z"]]⟩ = (none, none) ∧
    fallback_numeric_pair ⟨["t"], [[.num 10], [.num 10], [.num 10]]⟩ = (some "t", none) ∧
    ∃ lo hi,
      lo ∈ numericCandidates
        ⟨["a", "b", "c"],
         [[.num 10, .num 20, .num 31], [.num 10, .num 20, .num 31],
          [.num 10, .num 20, .num 31]]⟩ ∧
      hi ∈ numericCandidates
        ⟨["a", "b", "c"],
         [[.num 10, .num 20, .num 31], [.num 10, .num 20, .num 31],
          [.num 10, .num 20, .num 31]]⟩ ∧
      fallback_numeric_pair
        ⟨["a", "b", "c"],
         [[.num 10, .num 20, .num 31], [.num 10, .num 20, .num 31],
          [.num 10, .num 20, .num 31]]⟩ = (some lo.1, some hi.1) ∧
      ∀ c ∈ numericCandidates
        ⟨["a", "b", "c"],
         [[.num 10, .num 20, .num 31], [.num 10, .num 20, .num 31],
          [.num 10, .num 20, .num 31]]⟩, lo.2 ≤ c.2 ∧ c.2 ≤ hi.2 := by
  refine ⟨?_, ?_, ?_⟩
  · exact (C3_fallback_pair_amended _).1 (by with_unfolding_all rfl)
  · exact (C3_fallback_pair_amended _).2.1 ("t", 10) (by with_unfolding_all rfl)
  · exact (C3_fallback_pair_amended _).2.2 (by with_unfolding_all decide)

/-- C7 (counterexample): a failure of the production sub-computation (here
a missing crop column) propagates out of
`correlate_production_with_climate` as an exception — the
`production_trend` call sits before the `try` block — instead of yielding
an empty result with null correlation. -/
theorem C7_prod_failure_raises_cex :
    (correlate_production_with_climate ⟨["x"], [[.str "a"]]⟩
      ⟨["year", "state", "rainfall_mm"], [[.num 2018, .str "S", .num 10]]⟩
      "wheat" "S" 3).1 = .error "KeyError: crop" := by
  with_unfolding_all rfl

/-- C7 (amended): the Pearson field is null whenever fewer than two
year-joined points exist; a failure of the climate sub-computation yields
an empty result with null correlation; but a failure of the production
sub-computation propagates as an exception. -/
theorem C7_correlate_amended :
    (∀ (df_prod df_clim : DataFrame) (cn st : String) (N : ℤ)
        (merged : List (ℚ × ℚ × Option ℚ)) (corr : Option (ℚ × ℚ × ℚ)),
      (correlate_production_with_climate df_prod df_clim cn st N).1 = .ok (merged, corr) →
      merged.length < 2 → corr = none) ∧
    (∀ (df_prod df_clim : DataFrame) (cn st : String) (N : ℤ)
        (v : List (ℚ × ℚ) × ℚ × ℚ) (e : String),
      production_trend df_prod cn [("state", Cell.str st)] = .ok v →
      (avg_annual_climate_metric df_clim [st] none none N).1 = .error e →
      (correlate_production_with_climate df_prod df_clim cn st N).1 = .ok ([], none)) ∧
    (∀ (df_prod df_clim : DataFrame) (cn st : String) (N : ℤ) (e : String),
      production_trend df_prod cn [("state", Cell.str st)] = .error e →
      (correlate_production_with_climate df_prod df_clim cn st N).1 = .error e) := by
  refine ⟨?_, ?_, ?_⟩
  · intro dfp dfc cn st N merged corr h hlen
    simp only [correlate_production_with_climate] at h
    repeat' split at h
    all_goals try simp only at h
    all_goals first
      | exact Except.noConfusion h
      | (rw [Except.ok.injEq, Prod.mk.injEq] at h
         obtain ⟨h1, h2⟩ := h
         first
           | exact h2.symm
           | (subst h1; omega))
  · intro dfp dfc cn st N v e h1 h2
    obtain ⟨ts, m, c⟩ := v
    simp only [correlate_production_with_climate, h1, h2]
  · intro dfp dfc cn st N e h
    simp only [correlate_production_with_climate, h]

set_option maxRecDepth 8000 in
/-- C7 (witness): concrete instances of the three behaviours. -/
theorem C7_witness :
    (correlate_production_with_climate
      ⟨["year", "state", "crop", "production_tonnes"],
       [[.num 2018, .str "S", .str "Wheat", .num 100]]⟩
      ⟨["note"], [[.str "a"]]⟩ "wheat" "S" 3).1 = .ok ([], none) ∧
    (correlate_production_with_climate ⟨["x"], [[.str "a"]]⟩
      ⟨["year", "state", "rainfall_mm"], [[.num 2018, .str "S", .num 10]]⟩
      "wheat" "S" 3).1 = .error "KeyError: crop" ∧
    (none : Option (ℚ × ℚ × ℚ)) = none := by
  refine ⟨?_, ?_, ?_⟩
  · exact C7_correlate_amended.2.1 _ _ "wheat" "S" 3 ([(2018, 100)], 0, 100)
      "Could not detect year column in climate data"
      (by with_unfolding_all rfl) (by with_unfolding_all rfl)
  · exact C7_correlate_amended.2.2 _ _ "wheat" "S" 3 "KeyError: crop"
      (by with_unfolding_all rfl)
  · exact C7_correlate_amended.1
      ⟨["year", "state", "crop", "production_tonnes"],
       [[.num 2018, .str "S", .str "Wheat", .num 100]]⟩
      ⟨["note"], [[.str "a"]]⟩ "wheat" "S" 3 [] none
      (by with_unfolding_all rfl) (by decide)

/-! ## Facts about the trailing year window -/

theorem pyTrunc_intCast (k : ℤ) : pyTrunc (k : ℚ) = k := by
  unfold pyTrunc
  split
  · exact Int.ceil_intCast k
  · exact Int.floor_intCast k

theorem int_max?_spec {xs : List ℤ} {a : ℤ} (h : xs.max? = some a) :
    a ∈ xs ∧ ∀ b ∈ xs, b ≤ a := by
  haveI : Std.Antisymm (fun x1 x2 : ℤ => x1 ≤ x2) :=
    ⟨fun h1 h2 => le_antisymm h1 h2⟩
  rw [List.max?_eq_some_iff] at h
  · exact h
  · exact fun a => le_refl a
  · exact fun a b => max_choice a b
  · exact fun a b c => max_le_iff

/-- C2: the trailing-window filter keeps exactly the rows whose parsed year
lies in `[Y−N+1, Y]` inclusive, where `Y` — computed by the code as the max
of the int-truncated parseable year values — is the observed maximum year
whenever the year values are integral; rows with missing or unparseable
years are excluded, and a window of `N = 1` keeps exactly the max-year
rows. `filterYearWindow`/`yearsTruncMax?` are the shared window idiom of
`avg_annual_climate_metric`, `top_crops_by_volume` and
`_compute_national_climate_avg`. -/
theorem C2_trailing_window (df : DataFrame) (yi : ℕ) (N Y : ℤ)
    (hmax : yearsTruncMax? (df.colCells yi) = some Y)
    (hint : ∀ q ∈ numsOf (df.colCells yi), ∃ k : ℤ, q = (k : ℚ)) :
    ((Y : ℚ) ∈ numsOf (df.colCells yi) ∧ ∀ q ∈ numsOf (df.colCells yi), q ≤ (Y : ℚ)) ∧
    (∀ r, r ∈ (filterYearWindow df yi (Y - N + 1) Y).rows ↔
      r ∈ df.rows ∧ ∃ y : ℚ, (getCell r yi).toNum? = some y ∧
        ((Y - N + 1 : ℤ) : ℚ) ≤ y ∧ y ≤ (Y : ℚ)) ∧
    (∀ r, r ∈ (filterYearWindow df yi (Y - 1 + 1) Y).rows ↔
      r ∈ df.rows ∧ (getCell r yi).toNum? = some ((Y : ℚ))) := by
  unfold yearsTruncMax? at hmax
  have hspec := int_max?_spec hmax
  have hwin : ∀ (minY : ℤ) (r : List Cell),
      r ∈ (filterYearWindow df yi minY Y).rows ↔
      r ∈ df.rows ∧ ∃ y : ℚ, (getCell r yi).toNum? = some y ∧
        ((minY : ℤ) : ℚ) ≤ y ∧ y ≤ (Y : ℚ) := by
    intro minY r
    unfold filterYearWindow DataFrame.filterRows
    rw [List.mem_filter]
    refine and_congr_right (fun _ => ?_)
    rcases hy : (getCell r yi).toNum? with _ | y
    · simp [hy]
    · simp [hy, Bool.and_eq_true, decide_eq_true_eq]
  refine ⟨⟨?_, ?_⟩, fun r => hwin (Y - N + 1) r, fun r => ?_⟩
  · rcases List.mem_map.mp hspec.1 with ⟨q, hq, hpq⟩
    rcases hint q hq with ⟨k, hk⟩
    subst hk
    rw [pyTrunc_intCast] at hpq
    subst hpq
    exact hq
  · intro q hq
    rcases hint q hq with ⟨k, hk⟩
    subst hk
    have hmem : k ∈ (numsOf (df.colCells yi)).map pyTrunc :=
      List.mem_map.mpr ⟨(k : ℚ), hq, pyTrunc_intCast k⟩
    exact_mod_cast hspec.2 k hmem
  · rw [hwin (Y - 1 + 1) r]
    refine and_congr_right (fun _ => ?_)
    constructor
    · rintro ⟨y, hy, h1, h2⟩
      have hYc : ((Y - 1 + 1 : ℤ) : ℚ) = (Y : ℚ) := by push_cast; ring
      rw [hYc] at h1
      rw [le_antisymm h2 h1] at hy
      exact hy
    · intro hy
      refine ⟨(Y : ℚ), hy, ?_, le_refl _⟩
      push_cast
      norm_num

/-- C2 (witness): on a concrete table with years 2019, 2018 and one
unparseable year, 2019 is the observed maximum. -/
theorem C2_witness :
    (((2019 : ℤ) : ℚ)) ∈ numsOf
      (DataFrame.colCells
        ⟨["year", "v"], [[.num 2019, .num 1], [.num 2018, .num 2], [.str "x", .num 3]]⟩ 0) := by
  refine ((C2_trailing_window
    ⟨["year", "v"], [[.num 2019, .num 1], [.num 2018, .num 2], [.str "x", .num 3]]⟩
    0 3 2019 (by with_unfolding_all rfl) ?_).1).1
  intro q hq
  have hn : numsOf
      (DataFrame.colCells
        ⟨["year", "v"], [[.num 2019, .num 1], [.num 2018, .num 2], [.str "x", .num 3]]⟩ 0)
      = [(2019 : ℚ), 2018] := by with_unfolding_all rfl
  rw [hn] at hq
  rcases List.mem_cons.mp hq with h | h
  · exact ⟨2019, by rw [h]; norm_num⟩
  · rcases List.mem_cons.mp h with h2 | h2
    · exact ⟨2018, by rw [h2]; norm_num⟩
    · simp at h2

/-! ## Facts about column lookup -/

theorem findCand_mem {colsLower origs cands : List String} {c : String}
    (h : findCand colsLower origs cands = some c) : c ∈ origs := by
  unfold findCand at h
  rcases List.exists_of_findSome?_eq_some h with ⟨cand, _, hf⟩
  rcases Option.bind_eq_some.mp hf with ⟨i, _, hg⟩
  exact List.get?_mem hg

theorem colIdx?_of_mem {df : DataFrame} {c : String} (h : c ∈ df.columns) :
    ∃ j, df.colIdx? c = some j := by
  unfold DataFrame.colIdx?
  rcases he : df.columns.findIdx? (· == c) with _ | j
  · rw [List.findIdx?_eq_none_iff] at he
    have := he c h
    simp at this
  · exact ⟨j, rfl⟩

theorem avg_post_shape (df : DataFrame) (states : List String)
    (yc mc : Option (List String)) (N : ℤ) :
    ((avg_annual_climate_metric df states yc mc N).2.columns = df.columns) ∧
    ((avg_annual_climate_metric df states yc mc N).2 = df ∨
      ∃ yi,
        (avg_annual_climate_metric df states yc mc N).2 =
          df.mapRowsAt yi (fun r => coerceCell (getCell r yi)) ∧
        ∀ (r : List Cell) (j : ℕ), j ≠ yi →
          getCell (r.set yi (coerceCell (getCell r yi))) j = getCell r j) := by
  have hset : ∀ (yi : ℕ) (r : List Cell) (j : ℕ), j ≠ yi →
      getCell (r.set yi (coerceCell (getCell r yi))) j = getCell r j := by
    intro yi r j hj
    unfold getCell
    simp only [List.getD_eq_getElem?_getD]
    rw [List.getElem?_set_ne (fun h => hj h.symm)]
  rcases hA : avg_annual_climate_metric df states yc mc N with ⟨res, post⟩
  simp only [avg_annual_climate_metric] at hA
  repeat' split at hA
  all_goals rw [Prod.mk.injEq] at hA
  all_goals obtain ⟨hres, hpost⟩ := hA
  all_goals subst hpost
  all_goals first
    | exact ⟨rfl, Or.inl rfl⟩
    | exact ⟨rfl, Or.inr ⟨_, rfl, hset _⟩⟩

theorem correlate_post_state (dfp dfc : DataFrame) (cn st : String) (N : ℤ) :
    (correlate_production_with_climate dfp dfc cn st N).2 = dfc ∨
    (correlate_production_with_climate dfp dfc cn st N).2 =
      (avg_annual_climate_metric dfc [st] none none N).2 := by
  simp only [correlate_production_with_climate]
  repeat' split
  all_goals first
    | exact Or.inl rfl
    | exact Or.inr rfl

set_option maxRecDepth 8000 in
/-- C9 (counterexample): `avg_annual_climate_metric` mutates its input: the
caller's year column is overwritten in place with its numeric coercion
(`df_climate[year_col] = pd.to_numeric(...)`), so the post-call table
differs from the input; and `correlate_production_with_climate` passes the
caller's climate frame into that un-copied call, so it too hands back a
mutated climate frame. -/
theorem C9_avg_mutates_cex :
    (avg_annual_climate_metric
      ⟨["year", "t"], [[.str "2019", .num 1], [.str "x", .num 2]]⟩ [] none none 3).2
      ≠ ⟨["year", "t"], [[.str "2019", .num 1], [.str "x", .num 2]]⟩ ∧
    (correlate_production_with_climate
      ⟨["year", "state", "crop", "production_tonnes"],
       [[.num 2018, .str "S", .str "Wheat", .num 100]]⟩
      ⟨["year", "t"], [[.str "2019", .num 1], [.str "x", .num 2]]⟩ "wheat" "S" 3).2
      ≠ ⟨["year", "t"], [[.str "2019", .num 1], [.str "x", .num 2]]⟩ := by
  refine ⟨by with_unfolding_all decide, by with_unfolding_all decide⟩

/-- C9 (amended): `top_crops_by_volume` and `production_trend` copy their
input before assigning (embedded without a post-state), but
`avg_annual_climate_metric` coerces the input's detected year column in
place, and `correlate_production_with_climate` passes its caller's climate
frame into that un-copied call, inheriting the same in-place mutation (its
production argument is copied and untouched). The mutation is confined to
the year column: the post state keeps the columns, and either equals the
input (detection failed early, or the production sub-call failed first) or
differs from it exactly by the in-place numeric coercion of the year
column, all other cells unchanged. -/
theorem C9_avg_mutation_shape (df dfp : DataFrame) (states : List String)
    (yc mc : Option (List String)) (cn st : String) (N : ℤ) :
    ((avg_annual_climate_metric df states yc mc N).2.columns = df.columns) ∧
    ((avg_annual_climate_metric df states yc mc N).2 = df ∨
      ∃ yi,
        (avg_annual_climate_metric df states yc mc N).2 =
          df.mapRowsAt yi (fun r => coerceCell (getCell r yi)) ∧
        ∀ (r : List Cell) (j : ℕ), j ≠ yi →
          getCell (r.set yi (coerceCell (getCell r yi))) j = getCell r j) ∧
    ((correlate_production_with_climate dfp df cn st N).2.columns = df.columns) ∧
    ((correlate_production_with_climate dfp df cn st N).2 = df ∨
      ∃ yi,
        (correlate_production_with_climate dfp df cn st N).2 =
          df.mapRowsAt yi (fun r => coerceCell (getCell r yi)) ∧
        ∀ (r : List Cell) (j : ℕ), j ≠ yi →
          getCell (r.set yi (coerceCell (getCell r yi))) j = getCell r j) := by
  obtain ⟨h1, h2⟩ := avg_post_shape df states yc mc N
  obtain ⟨h1s, h2s⟩ := avg_post_shape df [st] none none N
  refine ⟨h1, h2, ?_, ?_⟩
  · rcases correlate_post_state dfp df cn st N with hp | hp
    · rw [hp]
    · rw [hp]
      exact h1s
  · rcases correlate_post_state dfp df cn st N with hp | hp
    · rw [hp]
      exact Or.inl rfl
    · rw [hp]
      exact h2s

/-! ## Detection-failure lemmas -/

theorem findCand_none_of {colsLower origs cands : List String}
    (h : ∀ cand ∈ cands, cand ∉ colsLower) : findCand colsLower origs cands = none := by
  unfold findCand
  rw [List.findSome?_eq_none_iff]
  intro cand hc
  have hidx : colsLower.findIdx? (· == cand) = none := by
    rw [List.findIdx?_eq_none_iff]
    intro x hx
    rw [beq_eq_false_iff_ne]
    rintro rfl
    exact h _ hc hx
  rw [hidx]
  rfl

theorem colIdx?_none_of_not_mem {df : DataFrame} {name : String} (h : name ∉ df.columns) :
    df.colIdx? name = none := by
  unfold DataFrame.colIdx?
  rw [List.findIdx?_eq_none_iff]
  intro x hx
  rw [beq_eq_false_iff_ne]
  rintro rfl
  exact h hx

theorem not_mem_map_lower {cols L : List String}
    (h : ∀ c ∈ cols, lowerStr c ∉ L) : ∀ cand ∈ L, cand ∉ cols.map lowerStr := by
  intro cand hcand hmem
  rcases List.mem_map.mp hmem with ⟨c, hc, hlc⟩
  exact h c hc (hlc ▸ hcand)

/-- C1 (counterexample): on a table missing all of the year/region/crop/
metric columns, `avg_annual_climate_metric` raises (`ValueError`, modelled
as `Except.error`) instead of returning an empty result with a note, and
`top_crops_by_volume` raises a `KeyError`. -/
theorem C1_analytics_raise_cex :
    (avg_annual_climate_metric ⟨["note_text"], [[.str "hello"], [.str "world"]]⟩
      [] none none 5).1 = .error "Could not detect year column in climate data" ∧
    top_crops_by_volume ⟨["note_text"], [[.str "hello"], [.str "world"]]⟩ "S" 5 3
      = .error "KeyError: crop" := by
  refine ⟨by with_unfolding_all rfl, by with_unfolding_all rfl⟩

/-- C1 (amended): on any table missing all of the year/region/crop/metric
columns, the analytics-layer aggregations raise — `avg_annual_climate_metric`
a `ValueError`, `top_crops_by_volume` and `production_trend` a `KeyError`
(which `correlate_production_with_climate` inherits, see C7) — while the
pipeline's robust `_compute_national_climate_avg` returns a null result
together with a non-empty list of diagnostic notes instead of raising; the
top-level `handle_question` catch-all (outside `src` scope here) is what
turns the raised errors into apology responses. -/
theorem C1_missing_roles (df : DataFrame) (states : List String) (st : String)
    (N : ℤ) (M : ℕ) (cn : String) (h : MissingAllRoles df) :
    (avg_annual_climate_metric df states none none N).1 =
      .error "Could not detect year column in climate data" ∧
    top_crops_by_volume df st N M = .error "KeyError: crop" ∧
    production_trend df cn [] = .error "KeyError: crop" ∧
    (compute_national_climate_avg (some df) N).1 = none ∧
    (compute_national_climate_avg (some df) N).2.debug.detection_notes ≠ [] := by
  obtain ⟨hY, hS, hC, hP, hNorm, hCount⟩ := h
  -- name-candidate detection all fails
  have hfY : findCand (df.columns.map lowerStr) df.columns avgYearCands = none :=
    findCand_none_of (fun cand hcand =>
      not_mem_map_lower hY cand (by
        simp only [avgYearCands] at hcand
        fin_cases hcand <;> decide))
  have hfYt : findCand (df.columns.map lowerStr) df.columns
      ["year", "season", "reporting_year"] = none :=
    findCand_none_of (fun cand hcand =>
      not_mem_map_lower hY cand (by
        fin_cases hcand <;> decide))
  have hfYp : findCand (df.columns.map lowerStr) df.columns ["year", "season"] = none :=
    findCand_none_of (fun cand hcand =>
      not_mem_map_lower hY cand (by
        fin_cases hcand <;> decide))
  have hfS : findCand (df.columns.map lowerStr) df.columns
      ["state", "st", "state_name"] = none :=
    findCand_none_of (fun cand hcand =>
      not_mem_map_lower hS cand (by
        fin_cases hcand <;> decide))
  have hfP : findCand (df.columns.map lowerStr) df.columns
      ["production_tonnes", "production", "production (tonnes)", "production (t)",
       "quantity"] = none :=
    findCand_none_of (fun cand hcand =>
      not_mem_map_lower hP cand (by
        fin_cases hcand <;> decide))
  have hfPp : findCand (df.columns.map lowerStr) df.columns
      ["production_tonnes", "production"] = none :=
    findCand_none_of (fun cand hcand =>
      not_mem_map_lower hP cand (by
        fin_cases hcand <;> decide))
  have hfC : findCand (df.columns.map lowerStr) df.columns
      ["crop", "commodity", "crop_name"] = none :=
    findCand_none_of (fun cand hcand =>
      not_mem_map_lower hC cand (by
        fin_cases hcand <;> decide))
  have hfCp : findCand (df.columns.map lowerStr) df.columns ["crop", "commodity"] = none :=
    findCand_none_of (fun cand hcand =>
      not_mem_map_lower hC cand (by
        fin_cases hcand <;> decide))
  -- fallback names are absent as literal columns
  have hmYear : "year" ∉ df.columns := fun hm => hY "year" hm (by decide)
  have hmState : "state" ∉ df.columns := fun hm => hS "state" hm (by decide)
  have hmProd : "production_tonnes" ∉ df.columns := fun hm => hP "production_tonnes" hm
    (by decide)
  have hmCrop : "crop" ∉ df.columns := fun hm => hC "crop" hm (by decide)
  have hiYear : df.colIdx? "year" = none := colIdx?_none_of_not_mem hmYear
  have hiState : df.colIdx? "state" = none := colIdx?_none_of_not_mem hmState
  have hiProd : df.colIdx? "production_tonnes" = none := colIdx?_none_of_not_mem hmProd
  have hnYF : natYearFound (normalizeFrame df) = (none, []) := by
    unfold natYearFound
    have hcont : (normalizeFrame df).columns.contains "year" = false := by
      show List.elem "year" (df.columns.map normName) = false
      rw [List.elem_eq_mem, decide_eq_false_iff_not]
      intro hm
      rcases List.mem_map.mp hm with ⟨c, hc, hnc⟩
      exact (hNorm c hc).1 hnc
    have hstrip : List.find? (fun nc => stripName nc == "year")
        (normalizeFrame df).columns = none := by
      rw [List.find?_eq_none]
      intro x hx
      rcases List.mem_map.mp hx with ⟨c, hc, hnc⟩
      simp only [beq_iff_eq]
      subst hnc
      exact (hNorm c hc).2
    have hshape : List.find? (fun nc =>
        match (normalizeFrame df).colIdx? nc with
        | some i => is_year_like_series ((normalizeFrame df).colCells i)
        | none => false) (normalizeFrame df).columns = none := by
      rw [List.find?_eq_none]
      intro x hx
      rcases hidx : (normalizeFrame df).colIdx? x with _ | i
      · simp [hidx]
      · have hilt : i < df.columns.length := by
          unfold DataFrame.colIdx? at hidx
          have := (List.findIdx?_eq_some_iff_findIdx_eq.mp hidx).1
          simpa [normalizeFrame] using this
        have hyl : is_year_like_series ((normalizeFrame df).colCells i) = false := by
          have hcc : (normalizeFrame df).colCells i = df.colCells i := rfl
          rw [hcc]
          unfold is_year_like_series
          rw [if_pos (hCount i hilt)]
        simp [hidx, hyl]
    rw [hcont]
    simp only [Bool.false_eq_true, if_false, hstrip, hshape]
  refine ⟨?_, ?_, ?_, ?_, ?_⟩
  · simp only [avg_annual_climate_metric, Option.getD_none, hfY]
  · have hiCrop2 : DataFrame.colIdx?
        ⟨df.columns ++ ["production_tonnes"], df.rows.map (fun r => r ++ [Cell.num 0])⟩
        "crop" = none := by
      apply colIdx?_none_of_not_mem
      intro hm
      rcases List.mem_append.mp hm with hm1 | hm1
      · exact hmCrop hm1
      · simp at hm1
    simp only [top_crops_by_volume, top_crops_prepare, hfYt, hfS, hfP, hfC,
      Option.getD_none, hiYear, hiState, hiProd, hiCrop2]
    rfl
  · have hiProd1 : DataFrame.colIdx?
        ⟨df.columns ++ ["year"], df.rows.map (fun r => r ++ [Cell.na])⟩
        "production_tonnes" = none := by
      apply colIdx?_none_of_not_mem
      intro hm
      rcases List.mem_append.mp hm with hm1 | hm1
      · exact hmProd hm1
      · simp at hm1
    have hiCrop1 : DataFrame.colIdx?
        ⟨(⟨df.columns ++ ["year"], df.rows.map (fun r => r ++ [Cell.na])⟩ :
            DataFrame).columns ++ ["production_tonnes"],
          (⟨df.columns ++ ["year"], df.rows.map (fun r => r ++ [Cell.na])⟩ :
            DataFrame).rows.map (fun r => r ++ [Cell.num 0])⟩ "crop" = none := by
      apply colIdx?_none_of_not_mem
      intro hm
      rcases List.mem_append.mp hm with hm1 | hm1
      · rcases List.mem_append.mp hm1 with hm2 | hm2
        · exact hmCrop hm2
        · simp at hm2
      · simp at hm1
    simp only [production_trend, hfYp, hfCp, hfPp, Option.getD_none, Option.isSome_none,
      Bool.false_eq_true, if_false, hiProd1, hiCrop1]
    rfl
  · by_cases hemp : (df.rows.isEmpty || df.columns.isEmpty) = true
    · simp only [compute_national_climate_avg, hemp, if_true]
    · simp only [compute_national_climate_avg, hemp, Bool.false_eq_true, if_false]
      rw [hnYF]
  · by_cases hemp : (df.rows.isEmpty || df.columns.isEmpty) = true
    · simp only [compute_national_climate_avg, hemp, if_true]
      simp
    · simp only [compute_national_climate_avg, hemp, Bool.false_eq_true, if_false]
      rw [hnYF]
      simp

/-- C1 (witness): the amended behaviour at a concrete role-free table. -/
theorem C1_witness :
    (avg_annual_climate_metric
      ⟨["note_text"], [[.str "hello"], [.str "world"], [.str "again"]]⟩ [] none none 5).1 =
      .error "Could not detect year column in climate data" ∧
    (compute_national_climate_avg
      (some ⟨["note_text"], [[.str "hello"], [.str "world"], [.str "again"]]⟩) 5).1 = none := by
  have h := C1_missing_roles
    ⟨["note_text"], [[.str "hello"], [.str "world"], [.str "again"]]⟩ [] "S" 5 3 "wheat"
    (by
      refine ⟨?_, ?_, ?_, ?_, ?_, ?_⟩
      · intro c hc; fin_cases hc; with_unfolding_all decide
      · intro c hc; fin_cases hc; with_unfolding_all decide
      · intro c hc; fin_cases hc; with_unfolding_all decide
      · intro c hc; fin_cases hc; with_unfolding_all decide
      · intro c hc; fin_cases hc; with_unfolding_all decide
      · intro i hi
        have hl1 : ((⟨["note_text"],
            [[Cell.str "hello"], [Cell.str "world"], [Cell.str "again"]]⟩ :
            DataFrame)).columns.length = 1 := rfl
        rw [hl1] at hi
        have hi0 : i = 0 := by omega
        subst hi0
        with_unfolding_all decide)
  exact ⟨h.1, h.2.2.2.1⟩

/-! ## Permutation invariance of grouping and summing -/

theorem foldl_add_eq (l : List ℚ) : ∀ (a : ℚ), l.foldl (· + ·) a = a + l.sum := by
  induction l with
  | nil => intro a; simp
  | cons x xs ih =>
    intro a
    rw [List.foldl_cons, ih (a + x), List.sum_cons]
    ring

theorem ratSum_eq_sum (l : List ℚ) : ratSum l = l.sum := by
  unfold ratSum
  rw [foldl_add_eq, zero_add]

theorem ratSum_perm {l₁ l₂ : List ℚ} (h : l₁.Perm l₂) : ratSum l₁ = ratSum l₂ := by
  rw [ratSum_eq_sum, ratSum_eq_sum]
  exact h.sum_eq

theorem int_max?_perm {l₁ l₂ : List ℤ} (h : l₁.Perm l₂) : l₁.max? = l₂.max? := by
  rcases h1 : l₁.max? with _ | a
  · rw [List.max?_eq_none_iff] at h1
    subst h1
    rw [eq_comm, List.max?_eq_none_iff]
    exact h.symm.eq_nil
  · rcases h2 : l₂.max? with _ | b
    · rw [List.max?_eq_none_iff] at h2
      subst h2
      rw [h.eq_nil] at h1
      simp [List.max?] at h1
    · have s1 := int_max?_spec h1
      have s2 := int_max?_spec h2
      have hab : a ≤ b := s2.2 a (h.mem_iff.mp s1.1)
      have hba : b ≤ a := s1.2 b (h.mem_iff.mpr s2.1)
      rw [le_antisymm hab hba]

theorem yearsTruncMax?_perm {c₁ c₂ : List Cell} (h : c₁.Perm c₂) :
    yearsTruncMax? c₁ = yearsTruncMax? c₂ := by
  unfold yearsTruncMax? numsOf
  exact int_max?_perm (((h.filterMap Cell.toNum?).map pyTrunc))

theorem groupKeys_perm {c₁ c₂ : List Cell} (h : c₁.Perm c₂) : groupKeys c₁ = groupKeys c₂ :=
  sortDedup_perm_inv cellLe cellLe_total cellLe_antisymm cellLe_trans (h.filter _)

theorem groupbySum_rows_perm {cols₁ cols₂ : List String}
    {rows₁ rows₂ : List (List Cell)} (ki vi : ℕ) (h : rows₁.Perm rows₂) :
    DataFrame.groupbySum ⟨cols₁, rows₁⟩ ki vi = DataFrame.groupbySum ⟨cols₂, rows₂⟩ ki vi := by
  unfold DataFrame.groupbySum
  have hkeys : groupKeys ((⟨cols₁, rows₁⟩ : DataFrame).colCells ki) =
      groupKeys ((⟨cols₂, rows₂⟩ : DataFrame).colCells ki) :=
    groupKeys_perm (h.map _)
  rw [hkeys]
  apply List.map_congr_left
  intro k _
  have hsum : ratSum (numsOf (((⟨cols₁, rows₁⟩ : DataFrame).filterRows
        (fun r => getCell r ki == k)).colCells vi)) =
      ratSum (numsOf (((⟨cols₂, rows₂⟩ : DataFrame).filterRows
        (fun r => getCell r ki == k)).colCells vi)) :=
    ratSum_perm (((h.filter _).map _).filterMap _)
  rw [hsum]

theorem groupbySum_congr {A B : DataFrame} (h : A.rows.Perm B.rows) (ki vi : ℕ) :
    A.groupbySum ki vi = B.groupbySum ki vi := by
  rcases A with ⟨ca, ra⟩
  rcases B with ⟨cb, rb⟩
  exact groupbySum_rows_perm ki vi h

theorem colIdx?_congr {A B : DataFrame} (hc : A.columns = B.columns) (name : String) :
    A.colIdx? name = B.colIdx? name := by
  unfold DataFrame.colIdx?
  rw [hc]

theorem DataFrame.columns_mk (c : List String) (r : List (List Cell)) :
    (⟨c, r⟩ : DataFrame).columns = c := rfl

theorem DataFrame.rows_mk (c : List String) (r : List (List Cell)) :
    (⟨c, r⟩ : DataFrame).rows = r := rfl

theorem top_crops_prepare_congr (df df' : DataFrame) (st : String) (N : ℤ)
    (hc : df'.columns = df.columns) (hr : df'.rows.Perm df.rows) :
    (top_crops_prepare df' st N).1.columns = (top_crops_prepare df st N).1.columns ∧
    (top_crops_prepare df' st N).1.rows.Perm (top_crops_prepare df st N).1.rows ∧
    (top_crops_prepare df' st N).2 = (top_crops_prepare df st N).2 := by
  simp only [top_crops_prepare, DataFrame.colIdx?, DataFrame.colCells,
    DataFrame.mapRowsAt, DataFrame.filterRows, filterYearWindow, hc]
  rcases hy : df.columns.findIdx?
      (· == (findCand (df.columns.map lowerStr) df.columns
        ["year", "season", "reporting_year"]).getD "year") with _ | yi
  · try simp only [hc, DataFrame.columns_mk, DataFrame.rows_mk]
    (rcases hst : df.columns.findIdx?
        (· == (findCand (df.columns.map lowerStr) df.columns
          ["state", "st", "state_name"]).getD "state") with _ | si <;>
      try simp only [hc, DataFrame.columns_mk, DataFrame.rows_mk]) <;>
    (rcases hpr : df.columns.findIdx?
        (· == (findCand (df.columns.map lowerStr) df.columns
          ["production_tonnes", "production", "production (tonnes)", "production (t)",
           "quantity"]).getD "production_tonnes") with _ | pidx <;>
      try simp only [hc, DataFrame.columns_mk, DataFrame.rows_mk]) <;>
    refine ⟨?_, ?_, ?_⟩ <;>
    first
      | rfl
      | trivial
      | exact hr.map _
      | exact (hr.map _).map _
      | exact ((hr.map _).filter _).map _
      | exact (hr.filter _).map _
  · try simp only [hc, DataFrame.columns_mk, DataFrame.rows_mk]
    rw [yearsTruncMax?_perm (hr.map (fun r => getCell r yi))]
    rcases hm : yearsTruncMax? (df.rows.map (fun r => getCell r yi)) with _ | maxY <;>
      try simp only [hc, DataFrame.columns_mk, DataFrame.rows_mk]
    all_goals try split_ifs with hmz
    all_goals try simp only [hc, DataFrame.columns_mk, DataFrame.rows_mk]
    all_goals
      (rcases hst : df.columns.findIdx?
          (· == (findCand (df.columns.map lowerStr) df.columns
            ["state", "st", "state_name"]).getD "state") with _ | si <;>
        try simp only [hc, DataFrame.columns_mk, DataFrame.rows_mk]) <;>
      (rcases hpr : df.columns.findIdx?
          (· == (findCand (df.columns.map lowerStr) df.columns
            ["production_tonnes", "production", "production (tonnes)", "production (t)",
             "quantity"]).getD "production_tonnes") with _ | pidx <;>
        try simp only [hc, DataFrame.columns_mk, DataFrame.rows_mk]) <;>
      refine ⟨?_, ?_, ?_⟩ <;>
      first
        | rfl
        | trivial
        | exact hr.map _
        | exact (hr.map _).map _
        | exact ((hr.map _).filter _).map _
        | exact (hr.filter _).map _
        | exact ((hr.filter _).filter _).map _
        | exact ((hr.map _).filter _).filter _
        | exact (((hr.map _).filter _).filter _).map _

/-- C5: `top_crops_by_volume` returns at most M rows, sorted in descending
order of summed production, and — because `groupby` canonicalizes groups in
key order before the stable descending sort — the result is invariant under
any reordering of the input rows (so ties are broken by grouping order, not
input order). -/
theorem C5_top_crops (df : DataFrame) (st : String) (N : ℤ) (M : ℕ) :
    (∀ out, top_crops_by_volume df st N M = .ok out →
      out.rows.length ≤ M ∧ out.rows.Chain' (fun a b => rowVal b ≤ rowVal a)) ∧
    (∀ df' : DataFrame, df'.columns = df.columns → df'.rows.Perm df.rows →
      top_crops_by_volume df' st N M = top_crops_by_volume df st N M) := by
  constructor
  · intro out h
    simp only [top_crops_by_volume] at h
    split at h
    · exact Except.noConfusion h
    · rw [Except.ok.injEq] at h
      subst h
      constructor
      · simp only [List.length_map]
        exact List.length_take_le M _
      · rw [List.chain'_map]
        exact (((List.sorted_insertionSort (fun a b : Cell × ℚ => b.2 ≤ a.2) _).sublist
            (List.take_sublist M _)).chain').imp (fun a b hrel => by
          show rowVal [b.1, Cell.num b.2] ≤ rowVal [a.1, Cell.num a.2]
          simpa [rowVal, getCell, Cell.toNum?] using hrel)
  · intro df' hc hr
    obtain ⟨h1, h2, h3⟩ := top_crops_prepare_congr df df' st N hc hr
    simp only [top_crops_by_volume, h3, colIdx?_congr h1, groupbySum_congr h2]

set_option maxRecDepth 4000 in
/-- C5 (witness): on a concrete three-row production table the top-2 result
has at most two rows sorted descending by volume, and swapping the first two
input rows leaves the result unchanged. -/
theorem C5_witness :
    ((⟨["crop", "production_tonnes"],
        [[Cell.str "Maize", Cell.num 7], [Cell.str "Wheat", Cell.num 7]]⟩ :
        DataFrame).rows.length ≤ 2 ∧
      (⟨["crop", "production_tonnes"],
        [[Cell.str "Maize", Cell.num 7], [Cell.str "Wheat", Cell.num 7]]⟩ :
        DataFrame).rows.Chain' (fun a b => rowVal b ≤ rowVal a)) ∧
    top_crops_by_volume
        ⟨["year", "state", "crop", "production_tonnes"],
         [[.str "2020", .str "X", .str "Wheat", .num 7],
          [.str "2020", .str "X", .str "Rice", .num 5],
          [.str "2021", .str "X", .str "Maize", .num 7]]⟩ "X" 3 2 =
      top_crops_by_volume
        ⟨["year", "state", "crop", "production_tonnes"],
         [[.str "2020", .str "X", .str "Rice", .num 5],
          [.str "2020", .str "X", .str "Wheat", .num 7],
          [.str "2021", .str "X", .str "Maize", .num 7]]⟩ "X" 3 2 :=
  ⟨(C5_top_crops
      ⟨["year", "state", "crop", "production_tonnes"],
       [[.str "2020", .str "X", .str "Rice", .num 5],
        [.str "2020", .str "X", .str "Wheat", .num 7],
        [.str "2021", .str "X", .str "Maize", .num 7]]⟩ "X" 3 2).1
      ⟨["crop", "production_tonnes"],
       [[Cell.str "Maize", Cell.num 7], [Cell.str "Wheat", Cell.num 7]]⟩
      (by with_unfolding_all rfl),
   (C5_top_crops
      ⟨["year", "state", "crop", "production_tonnes"],
       [[.str "2020", .str "X", .str "Rice", .num 5],
        [.str "2020", .str "X", .str "Wheat", .num 7],
        [.str "2021", .str "X", .str "Maize", .num 7]]⟩ "X" 3 2).2
      ⟨["year", "state", "crop", "production_tonnes"],
       [[.str "2020", .str "X", .str "Wheat", .num 7],
        [.str "2020", .str "X", .str "Rice", .num 5],
        [.str "2021", .str "X", .str "Maize", .num 7]]⟩ rfl (by decide)⟩

/-- C9 (witness): the frame characterization at a concrete table. -/
theorem C9_witness :
    (avg_annual_climate_metric
      ⟨["year", "t"], [[.str "2019", .num 1], [.str "x", .num 2]]⟩ [] none none 3).2.columns
      = ["year", "t"] :=
  (C9_avg_mutation_shape
    ⟨["year", "t"], [[.str "2019", .num 1], [.str "x", .num 2]]⟩
    ⟨["year", "state", "crop", "production_tonnes"],
     [[.num 2018, .str "S", .str "Wheat", .num 100]]⟩ [] none none "wheat" "S" 3).1

end Samarth
